import Mathlib

/-
Verification of the marsa11y accessibility-checker engine.

The TypeScript sources are embedded shallowly: JavaScript strings become
`List Char`, `String.prototype.includes` becomes substring containment,
`String.prototype.trim` strips whitespace at both ends, and the few regular
expressions used by the detectors are embedded as hand-written first-match
scanners with JavaScript leftmost-match semantics.  Detector families return
the list of non-null detector results in declaration order, exactly as the
`checks`-array-plus-`forEach`-push pattern of the source does.
-/

set_option maxRecDepth 4000

/-- JavaScript strings are modelled as lists of characters. -/
abbrev Str := List Char

/-- `String.prototype.includes`: `includes s pat` is true iff `pat` occurs as a
contiguous substring of `s`. -/
def includes (s pat : Str) : Bool :=
  decide (pat <:+: s)

/-- Left part of `String.prototype.trim`: drop leading whitespace. -/
def trimLeft (s : Str) : Str :=
  s.dropWhile Char.isWhitespace

/-- Right part of `String.prototype.trim`: drop trailing whitespace. -/
def trimRight (s : Str) : Str :=
  (s.reverse.dropWhile Char.isWhitespace).reverse

/-- `String.prototype.trim`: drop whitespace at both ends. -/
def trim (s : Str) : Str :=
  trimRight (trimLeft s)

/-- Index of the leftmost occurrence of `pat` in `s` (JS `String.indexOf`,
with `none` for the JS result `-1`). -/
def firstOcc (pat : Str) : Str → Option Nat
  | [] => if pat.isPrefixOf ([] : Str) then some 0 else none
  | c :: t =>
    if pat.isPrefixOf (c :: t) then some 0
    else (firstOcc pat t).map (· + 1)

/-- JS `String.indexOf(c, start)`: first index `≥ start` holding `c`. -/
def indexOfFrom (c : Char) (start : Nat) (s : Str) : Option Nat :=
  (firstOcc [c] (s.drop start)).map (start + ·)

/-- Generic leftmost-match scanner: try the anchored matcher `f` on every
suffix of the input, leftmost start first — the search order of a JS regex
without the sticky flag. -/
def scanFirst (f : Str → Option α) : Str → Option α
  | [] => f []
  | c :: t =>
    match f (c :: t) with
    | some v => some v
    | none => scanFirst f t

/-- A JS regex `["']` character class member. -/
def isQuote (c : Char) : Bool :=
  c == '"' || c == '\''

/-- A JS regex line terminator (what `.` refuses to match without `s`). -/
def isLineTerm (c : Char) : Bool :=
  c == '\n' || c == '\r' || c == Char.ofNat 0x2028 || c == Char.ofNat 0x2029

/-- Anchored attempt of `LIT["']([^"']+)["']` at the start of `s`, returning
the captured group.  The greedy `[^"']+` run must be non-empty and must be
followed by a closing quote of either kind. -/
def quotedValAt (lit : Str) (s : Str) : Option Str :=
  if lit.isPrefixOf s then
    match s.drop lit.length with
    | q :: rest =>
      if isQuote q then
        let run := rest.takeWhile (fun c => !(isQuote c))
        match rest.drop run.length with
        | q2 :: _ => if isQuote q2 && !run.isEmpty then some run else none
        | [] => none
      else none
    | [] => none
  else none

/-- Leftmost match of `LIT["']([^"']+)["']` (JS `String.match` group 1). -/
def firstQuotedVal (lit : Str) (s : Str) : Option Str :=
  scanFirst (quotedValAt lit) s

/-- Anchored attempt of `OPEN[^>]*>(.*?)CLOSE` at the start of `s`: the literal
opening tag, a greedy run up to the first `>`, then the lazy group up to the
first occurrence of the closing literal; the group may not cross a line
terminator because JS `.` does not match one. -/
def tagContentAt (openLit closeLit : Str) (s : Str) : Option Str :=
  if openLit.isPrefixOf s then
    let rest := s.drop openLit.length
    let run := rest.takeWhile (fun c => c != '>')
    match rest.drop run.length with
    | _ :: rest2 =>
      match firstOcc closeLit rest2 with
      | some k =>
        let gap := rest2.take k
        if gap.any isLineTerm then none else some gap
      | none => none
    | [] => none
  else none

/-- Group 1 of the leftmost match of `/<button[^>]*>(.*?)<\/button>/`. -/
def buttonContent (s : Str) : Option Str :=
  scanFirst (tagContentAt "<button".toList "</button>".toList) s

/-- Group 1 of the leftmost match of `/<a[^>]*>(.*?)<\/a>/`. -/
def anchorContent (s : Str) : Option Str :=
  scanFirst (tagContentAt "<a".toList "</a>".toList) s

/-- Whether `/OPEN[^>]*>.*CLOSE/` matches anywhere (the greedy variant used
only as a boolean test; a match exists iff the lazy variant finds one). -/
def hasTagMatch (openLit closeLit : Str) (s : Str) : Bool :=
  (scanFirst (tagContentAt openLit closeLit) s).isSome

/-- Anchored attempt of `/>([^<]+)</` at the start of `s`. -/
def gtTextAt (s : Str) : Option Str :=
  match s with
  | '>' :: rest =>
    let run := rest.takeWhile (fun c => c != '<')
    match rest.drop run.length with
    | _ :: _ => if !run.isEmpty then some run else none
    | [] => none
  | _ => none

/-- Group 1 of the leftmost match of `/>([^<]+)</`. -/
def firstGtText (s : Str) : Option Str :=
  scanFirst gtTextAt s

/-- Anchored attempt of `/<h([1-6])[^>]*>/`, returning the level digit. -/
def headingLevelAt (s : Str) : Option Char :=
  match s with
  | '<' :: 'h' :: d :: rest =>
    if '1' ≤ d && d ≤ '6' then
      let run := rest.takeWhile (fun c => c != '>')
      match rest.drop run.length with
      | _ :: _ => some d
      | [] => none
    else none
  | _ => none

/-- Level digit of the leftmost match of `/<h([1-6])[^>]*>/`. -/
def firstHeadingLevel (s : Str) : Option Char :=
  scanFirst headingLevelAt s

/-- Anchored attempt of `/tabindex=["'](-[0-9]+)["']/`, returning group 1. -/
def negTabIndexAt (s : Str) : Option Str :=
  if ("tabindex=".toList).isPrefixOf s then
    match s.drop 9 with
    | q :: '-' :: rest =>
      if isQuote q then
        let ds := rest.takeWhile Char.isDigit
        match rest.drop ds.length with
        | q2 :: _ => if isQuote q2 && !ds.isEmpty then some ('-' :: ds) else none
        | [] => none
      else none
    | _ => none
  else none

/-- Anchored attempt of `/tabindex=["']([1-9][0-9]*)["']/`, returning group 1. -/
def posTabIndexAt (s : Str) : Option Str :=
  if ("tabindex=".toList).isPrefixOf s then
    match s.drop 9 with
    | q :: d :: rest =>
      if isQuote q && d.isDigit && d != '0' then
        let ds := rest.takeWhile Char.isDigit
        match rest.drop ds.length with
        | q2 :: _ => if isQuote q2 then some (d :: ds) else none
        | [] => none
      else none
    | _ => none
  else none

/-- JS `text.split('\n')`: the resulting chunks, separators removed; an empty
input yields one empty chunk, as in JavaScript. -/
def splitOnNl : Str → List Str
  | [] => [[]]
  | c :: t =>
    if c = '\n' then [] :: splitOnNl t
    else
      match splitOnNl t with
      | [] => [[c]]
      | l :: ls => (c :: l) :: ls

/-- Inverse of `splitOnNl`: join chunks with `'\n'` separators. -/
def joinNl : List Str → Str
  | [] => []
  | [l] => l
  | l :: ls => l ++ '\n' :: joinNl ls

/-- Anchored attempt of `/<h1[^>]*>/`: if it matches at the start of `s`,
return the length of the matched text. -/
def h1TagLenAt (s : Str) : Option Nat :=
  if ("<h1".toList).isPrefixOf s then
    let rest := s.drop 3
    let run := rest.takeWhile (fun c => c != '>')
    match rest.drop run.length with
    | _ :: _ => some (3 + run.length + 1)
    | [] => none
  else none

/-- `(fullText.match(/<h1[^>]*>/g) || []).length`: the number of
non-overlapping leftmost matches, global-flag style (the scan resumes right
after each match). -/
def countH1Matches : Str → Nat
  | [] => 0
  | c :: t =>
    match h1TagLenAt (c :: t) with
    | some k => 1 + countH1Matches (t.drop (k - 1))
    | none => countH1Matches t
termination_by s => s.length
decreasing_by
  · simp only [List.length_drop, List.length_cons]; omega
  · simp only [List.length_cons]; omega

/-- Case-insensitive literal prefix test (the `i` flag on the image regex);
`pat` is given lowercase. -/
def ciIsPrefixOf (pat s : Str) : Bool :=
  (s.take pat.length).map Char.toLower == pat

/-- Tail of the image regex after `src=`: `["']([^"']+)["'][^>]*>`, anchored;
returns the captured source value. -/
def srcTailMatch (s : Str) : Option Str :=
  match s with
  | q :: rest =>
    if isQuote q then
      let run := rest.takeWhile (fun c => !(isQuote c))
      match rest.drop run.length with
      | q2 :: rest2 =>
        if isQuote q2 && !run.isEmpty then
          let run2 := rest2.takeWhile (fun c => c != '>')
          match rest2.drop run2.length with
          | _ :: _ => some run
          | [] => none
        else none
      | [] => none
    else none
  | [] => none

/-- Backtracking step of `<img[^>]*src=...`: the greedy `[^>]*` tries the
latest `src=` start first, so candidate offsets are attempted from `j`
downwards. -/
def imgSrcBack (rest : Str) : Nat → Option Str
  | 0 =>
    if ciIsPrefixOf "src=".toList rest then srcTailMatch (rest.drop 4) else none
  | j + 1 =>
    match
      (if ciIsPrefixOf "src=".toList (rest.drop (j + 1)) then
        srcTailMatch (rest.drop (j + 1 + 4))
      else none) with
    | some v => some v
    | none => imgSrcBack rest j

/-- Anchored attempt of `/<img[^>]*src=["']([^"']+)["'][^>]*>/i`:
case-insensitive `<img`, then `src=` anywhere inside the greedy run of
non-`>` characters (latest first), then the quoted source value. -/
def imgSrcAt (s : Str) : Option Str :=
  if ciIsPrefixOf "<img".toList s then
    let rest := s.drop 4
    let run := rest.takeWhile (fun c => c != '>')
    imgSrcBack rest run.length
  else none

/-- Leftmost match of the image-source regex over the whole string. -/
def firstImgSrc (s : Str) : Option Str :=
  scanFirst imgSrcAt s

/-- `vscode.Range` as used by the checkers: start line/column and end
line/column. -/
structure VsRange where
  startLine : Nat
  startCol : Nat
  endLine : Nat
  endCol : Nat
deriving DecidableEq, Repr

/-- The `AccessibilityIssue` interface of `accessibilityChecker.ts`:
1-based display line, message text, severity string, and whole-line range. -/
structure AccessibilityIssue where
  line : Nat
  issue : Str
  severity : Str
  range : VsRange
deriving DecidableEq, Repr

/-- `vscode.DiagnosticSeverity`. -/
inductive DiagnosticSeverity where
  | error
  | warning
  | information
  | hint
deriving DecidableEq, Repr

namespace ImageChecker

/-- `ImageChecker.checkImageAltAttributes` (imageChecker.ts). -/
def checkImageAltAttributes (line : Str) (lineNumber : Nat) : Option AccessibilityIssue :=
  let trimmedLine := trim line
  if includes trimmedLine "<img".toList && !includes trimmedLine "alt=".toList then
    some ⟨lineNumber + 1,
      "Missing alt attribute on image....".toList,
      "HIGH".toList,
      ⟨lineNumber, 0, lineNumber, line.length⟩⟩
  else none

/-- `ImageChecker.checkEmptyAltAttributes` (imageChecker.ts); the
single-quoted pattern `alt=''` is written out as characters. -/
def checkEmptyAltAttributes (line : Str) (lineNumber : Nat) : Option AccessibilityIssue :=
  let trimmedLine := trim line
  if includes trimmedLine "alt=\"\"".toList ||
      includes trimmedLine ['a', 'l', 't', '=', '\'', '\''] then
    some ⟨lineNumber + 1,
      "Empty alt attribute - consider if image is decorative or needs description".toList,
      "MEDIUM".toList,
      ⟨lineNumber, 0, lineNumber, line.length⟩⟩
  else none

/-- `ImageChecker.checkImages`: run the two image detectors in declaration
order and keep the non-null results. -/
def checkImages (line : Str) (lineNumber : Nat) : List AccessibilityIssue :=
  [checkImageAltAttributes line lineNumber,
   checkEmptyAltAttributes line lineNumber].filterMap id

end ImageChecker

namespace FormElementsChecker

/-- `FormElementsChecker.checkFormInputLabels` (formElementsChecker.ts). -/
def checkFormInputLabels (line : Str) (lineNumber : Nat) : Option AccessibilityIssue :=
  let trimmedLine := trim line
  if (includes trimmedLine "<input".toList || includes trimmedLine "<textarea".toList ||
        includes trimmedLine "<select".toList) &&
      !includes trimmedLine "aria-label".toList &&
      !includes trimmedLine "aria-labelledby".toList &&
      !includes trimmedLine "id=".toList && !includes trimmedLine "placeholder=".toList then
    some ⟨lineNumber + 1,
      "Form input missing label, aria-label, or aria-labelledby".toList,
      "HIGH".toList,
      ⟨lineNumber, 0, lineNumber, line.length⟩⟩
  else none

/-- `FormElementsChecker.checkFormLabels` (formElementsChecker.ts). -/
def checkFormLabels (line : Str) (lineNumber : Nat) : Option AccessibilityIssue :=
  let trimmedLine := trim line
  if includes trimmedLine "<label".toList && !includes trimmedLine "for=".toList then
    some ⟨lineNumber + 1,
      "Label element missing for attribute".toList,
      "MEDIUM".toList,
      ⟨lineNumber, 0, lineNumber, line.length⟩⟩
  else none

/-- `FormElementsChecker.checkFormElements`: both detectors in declaration
order, non-null results kept. -/
def checkFormElements (line : Str) (lineNumber : Nat) : List AccessibilityIssue :=
  [checkFormInputLabels line lineNumber,
   checkFormLabels line lineNumber].filterMap id

end FormElementsChecker

namespace OtherAccessibilityChecker

/-- `OtherAccessibilityChecker.checkHeadingStructure`
(otherAccessibilityChecker.ts): flags multiple `h1` tags, but only when the
trimmed line contains `<h1>` while the full text does not. -/
def checkHeadingStructure (line : Str) (lineNumber : Nat) (fullText : Str) :
    Option AccessibilityIssue :=
  let trimmedLine := trim line
  if includes trimmedLine "<h1>".toList || includes trimmedLine "<h2>".toList ||
      includes trimmedLine "<h3>".toList || includes trimmedLine "<h4>".toList ||
      includes trimmedLine "<h5>".toList || includes trimmedLine "<h6>".toList then
    if includes trimmedLine "<h1>".toList && !includes fullText "<h1>".toList then
      some ⟨lineNumber + 1,
        "Multiple h1 tags found - page should have only one h1".toList,
        "MEDIUM".toList,
        ⟨lineNumber, 0, lineNumber, line.length⟩⟩
    else none
  else none

/-- `OtherAccessibilityChecker.checkHtmlLangAttribute`. -/
def checkHtmlLangAttribute (line : Str) (lineNumber : Nat) : Option AccessibilityIssue :=
  let trimmedLine := trim line
  if includes trimmedLine "<html".toList && !includes trimmedLine "lang=".toList then
    some ⟨lineNumber + 1,
      "Missing lang attribute on html tag".toList,
      "HIGH".toList,
      ⟨lineNumber, 0, lineNumber, line.length⟩⟩
  else none

/-- `OtherAccessibilityChecker.checkKeyboardAccessibility`. -/
def checkKeyboardAccessibility (line : Str) (lineNumber : Nat) : Option AccessibilityIssue :=
  let trimmedLine := trim line
  if (includes trimmedLine "<div".toList || includes trimmedLine "<span".toList) &&
      includes trimmedLine "onclick".toList && !includes trimmedLine "tabindex".toList &&
      !includes trimmedLine "role=".toList then
    some ⟨lineNumber + 1,
      "Clickable div/span without keyboard accessibility - add tabindex and role".toList,
      "HIGH".toList,
      ⟨lineNumber, 0, lineNumber, line.length⟩⟩
  else none

/-- `OtherAccessibilityChecker.checkColorOnlyInformation`. -/
def checkColorOnlyInformation (line : Str) (lineNumber : Nat) : Option AccessibilityIssue :=
  let trimmedLine := trim line
  if includes trimmedLine "color:".toList || includes trimmedLine "background-color:".toList then
    some ⟨lineNumber + 1,
      "Color styling detected - ensure information is not conveyed by color alone".toList,
      "LOW".toList,
      ⟨lineNumber, 0, lineNumber, line.length⟩⟩
  else none

/-- `OtherAccessibilityChecker.checkFocusIndicators`. -/
def checkFocusIndicators (line : Str) (lineNumber : Nat) : Option AccessibilityIssue :=
  let trimmedLine := trim line
  if includes trimmedLine ":focus".toList && includes trimmedLine "outline: none".toList then
    some ⟨lineNumber + 1,
      "Focus outline removed without alternative focus indicator".toList,
      "HIGH".toList,
      ⟨lineNumber, 0, lineNumber, line.length⟩⟩
  else none

/-- `OtherAccessibilityChecker.checkOtherAccessibility`: the five detectors
in declaration order, non-null results kept. -/
def checkOtherAccessibility (line : Str) (lineNumber : Nat) (fullText : Str) :
    List AccessibilityIssue :=
  [checkHeadingStructure line lineNumber fullText,
   checkHtmlLangAttribute line lineNumber,
   checkKeyboardAccessibility line lineNumber,
   checkColorOnlyInformation line lineNumber,
   checkFocusIndicators line lineNumber].filterMap id

end OtherAccessibilityChecker

namespace AriaLabelRoleChecker

/-- `AriaLabelRoleChecker.VALID_ROLES` (ariaLabelRoleChecker.ts). -/
def VALID_ROLES : List Str :=
  ["alert".toList, "alertdialog".toList, "application".toList, "article".toList,
   "banner".toList, "button".toList, "cell".toList, "checkbox".toList,
   "columnheader".toList, "combobox".toList, "complementary".toList,
   "contentinfo".toList, "definition".toList, "dialog".toList, "directory".toList,
   "document".toList, "feed".toList, "figure".toList, "form".toList, "grid".toList,
   "gridcell".toList, "group".toList, "heading".toList, "img".toList, "link".toList,
   "list".toList, "listbox".toList, "listitem".toList, "log".toList, "main".toList,
   "marquee".toList, "math".toList, "menu".toList, "menubar".toList,
   "menuitem".toList, "menuitemcheckbox".toList, "menuitemradio".toList,
   "navigation".toList, "none".toList, "note".toList, "option".toList,
   "presentation".toList, "progressbar".toList, "radio".toList,
   "radiogroup".toList, "region".toList, "row".toList, "rowgroup".toList,
   "rowheader".toList, "scrollbar".toList, "search".toList, "separator".toList,
   "slider".toList, "spinbutton".toList, "status".toList, "switch".toList,
   "tab".toList, "table".toList, "tablist".toList, "tabpanel".toList,
   "textbox".toList, "timer".toList, "toolbar".toList, "tooltip".toList,
   "tree".toList, "treegrid".toList, "treeitem".toList]

/-- `AriaLabelRoleChecker.INTERACTIVE_ELEMENTS`. -/
def INTERACTIVE_ELEMENTS : List Str :=
  ["button".toList, "input".toList, "select".toList, "textarea".toList,
   "a".toList, "area".toList, "summary".toList]

/-- `AriaLabelRoleChecker.SEMANTIC_ELEMENTS` (declared in the source; not
read by any of the fifteen detectors). -/
def SEMANTIC_ELEMENTS : List Str :=
  ["button".toList, "input".toList, "select".toList, "textarea".toList,
   "a".toList, "nav".toList, "main".toList, "header".toList, "footer".toList,
   "section".toList, "article".toList, "aside".toList]

/-- `AriaLabelRoleChecker.checkMissingAriaLabel`: interactive element with no
aria-label/aria-labelledby/title/alt and no visible button or link text. -/
def checkMissingAriaLabel (line : Str) (lineNumber : Nat) : Option AccessibilityIssue :=
  let trimmedLine := trim line
  let hasInteractiveElement := INTERACTIVE_ELEMENTS.any fun element =>
    includes trimmedLine ('<' :: element) || includes trimmedLine ('<' :: element ++ [' '])
  if hasInteractiveElement then
    let hasAriaLabel := includes trimmedLine "aria-label".toList ||
      includes trimmedLine "aria-labelledby".toList
    let hasTitle := includes trimmedLine "title=".toList
    let hasAlt := includes trimmedLine "alt=".toList
    let buttonText :=
      if includes trimmedLine "<button".toList then
        match buttonContent trimmedLine with
        | some g => !(trim g).isEmpty
        | none => false
      else false
    let linkText :=
      if includes trimmedLine "<a".toList then
        match anchorContent trimmedLine with
        | some g => !(trim g).isEmpty
        | none => false
      else false
    let hasVisibleText := buttonText || linkText
    let hasAccessibleName := hasAriaLabel || hasTitle || hasAlt || hasVisibleText
    if !hasAccessibleName then
      some ⟨lineNumber + 1,
        "Interactive element missing accessible name (aria-label, aria-labelledby, or visible text)".toList,
        "HIGH".toList,
        ⟨lineNumber, 0, lineNumber, line.length⟩⟩
    else none
  else none

/-- `AriaLabelRoleChecker.checkEmptyAriaLabel`: the four literal empty or
whitespace-only aria-label patterns; single-quoted ones written as
characters. -/
def checkEmptyAriaLabel (line : Str) (lineNumber : Nat) : Option AccessibilityIssue :=
  let trimmedLine := trim line
  if includes trimmedLine "aria-label=\"\"".toList ||
      includes trimmedLine ("aria-label=".toList ++ ['\'', '\'']) ||
      includes trimmedLine "aria-label=\" \"".toList ||
      includes trimmedLine ("aria-label=".toList ++ ['\'', ' ', '\'']) then
    some ⟨lineNumber + 1,
      "Empty or whitespace-only aria-label provides no accessible name".toList,
      "HIGH".toList,
      ⟨lineNumber, 0, lineNumber, line.length⟩⟩
  else none

/-- `AriaLabelRoleChecker.checkRedundantAriaLabel`: button or link with an
aria-label and non-empty visible text between tags. -/
def checkRedundantAriaLabel (line : Str) (lineNumber : Nat) : Option AccessibilityIssue :=
  let trimmedLine := trim line
  if (includes trimmedLine "<button".toList || includes trimmedLine "<a".toList) &&
      includes trimmedLine "aria-label".toList &&
      includes trimmedLine ">".toList && includes trimmedLine "</".toList then
    match firstGtText trimmedLine with
    | some t =>
      if !(trim t).isEmpty then
        some ⟨lineNumber + 1,
          "Redundant aria-label when visible text already provides accessible name".toList,
          "MEDIUM".toList,
          ⟨lineNumber, 0, lineNumber, line.length⟩⟩
      else none
    | none => none
  else none

/-- `AriaLabelRoleChecker.checkInvalidRole`: role value not in `VALID_ROLES`
after lowercasing. -/
def checkInvalidRole (line : Str) (lineNumber : Nat) : Option AccessibilityIssue :=
  let trimmedLine := trim line
  if includes trimmedLine "role=".toList then
    match firstQuotedVal "role=".toList trimmedLine with
    | some v =>
      let role := v.map Char.toLower
      if !VALID_ROLES.contains role then
        some ⟨lineNumber + 1,
          "Invalid ARIA role \"".toList ++ role ++ "\" - not a valid ARIA role".toList,
          "HIGH".toList,
          ⟨lineNumber, 0, lineNumber, line.length⟩⟩
      else none
    | none => none
  else none

/-- `AriaLabelRoleChecker.checkRedundantRole`: explicit role duplicating an
element's implicit role. -/
def checkRedundantRole (line : Str) (lineNumber : Nat) : Option AccessibilityIssue :=
  let trimmedLine := trim line
  if includes trimmedLine "role=".toList then
    match firstQuotedVal "role=".toList trimmedLine with
    | some v =>
      let role := v.map Char.toLower
      if (includes trimmedLine "<button".toList && role == "button".toList) ||
          (includes trimmedLine "<nav".toList && role == "navigation".toList) ||
          (includes trimmedLine "<main".toList && role == "main".toList) ||
          (includes trimmedLine "<header".toList && role == "banner".toList) ||
          (includes trimmedLine "<footer".toList && role == "contentinfo".toList) ||
          (includes trimmedLine "<section".toList && role == "region".toList) ||
          (includes trimmedLine "<article".toList && role == "article".toList) ||
          (includes trimmedLine "<aside".toList && role == "complementary".toList) then
        some ⟨lineNumber + 1,
          "Redundant role=\"".toList ++ role ++
            "\" on semantic element - element already has implicit role".toList,
          "LOW".toList,
          ⟨lineNumber, 0, lineNumber, line.length⟩⟩
      else none
    | none => none
  else none

/-- `AriaLabelRoleChecker.checkMissingAriaLabelledbyReference`: the referenced
id must occur (with either quoting style) in the full document text. -/
def checkMissingAriaLabelledbyReference (line : Str) (lineNumber : Nat) (fullText : Str) :
    Option AccessibilityIssue :=
  let trimmedLine := trim line
  if includes trimmedLine "aria-labelledby=".toList then
    match firstQuotedVal "aria-labelledby=".toList trimmedLine with
    | some referencedId =>
      if !includes fullText ("id=\"".toList ++ referencedId ++ "\"".toList) &&
          !includes fullText ("id=".toList ++ '\'' :: referencedId ++ ['\'']) then
        some ⟨lineNumber + 1,
          "aria-labelledby references non-existent element with id=\"".toList ++
            referencedId ++ "\"".toList,
          "HIGH".toList,
          ⟨lineNumber, 0, lineNumber, line.length⟩⟩
      else none
    | none => none
  else none

/-- `AriaLabelRoleChecker.checkMissingAriaDescribedbyReference`. -/
def checkMissingAriaDescribedbyReference (line : Str) (lineNumber : Nat) (fullText : Str) :
    Option AccessibilityIssue :=
  let trimmedLine := trim line
  if includes trimmedLine "aria-describedby=".toList then
    match firstQuotedVal "aria-describedby=".toList trimmedLine with
    | some referencedId =>
      if !includes fullText ("id=\"".toList ++ referencedId ++ "\"".toList) &&
          !includes fullText ("id=".toList ++ '\'' :: referencedId ++ ['\'']) then
        some ⟨lineNumber + 1,
          "aria-describedby references non-existent element with id=\"".toList ++
            referencedId ++ "\"".toList,
          "HIGH".toList,
          ⟨lineNumber, 0, lineNumber, line.length⟩⟩
      else none
    | none => none
  else none

/-- `AriaLabelRoleChecker.checkMissingAriaExpanded`. -/
def checkMissingAriaExpanded (line : Str) (lineNumber : Nat) : Option AccessibilityIssue :=
  let trimmedLine := trim line
  if (includes trimmedLine "role=\"button\"".toList ||
        includes trimmedLine "role=\"menuitem\"".toList) &&
      includes trimmedLine "onclick".toList &&
      !includes trimmedLine "aria-expanded".toList then
    some ⟨lineNumber + 1,
      "Collapsible element missing aria-expanded attribute".toList,
      "MEDIUM".toList,
      ⟨lineNumber, 0, lineNumber, line.length⟩⟩
  else none

/-- `AriaLabelRoleChecker.checkIncorrectAriaExpanded`. -/
def checkIncorrectAriaExpanded (line : Str) (lineNumber : Nat) : Option AccessibilityIssue :=
  let trimmedLine := trim line
  if includes trimmedLine "aria-expanded=".toList then
    match firstQuotedVal "aria-expanded=".toList trimmedLine with
    | some v =>
      let value := v.map Char.toLower
      if value != "true".toList && value != "false".toList then
        some ⟨lineNumber + 1,
          "Invalid aria-expanded value \"".toList ++ value ++
            "\" - must be \"true\" or \"false\"".toList,
          "HIGH".toList,
          ⟨lineNumber, 0, lineNumber, line.length⟩⟩
      else none
    | none => none
  else none

/-- `AriaLabelRoleChecker.checkMissingAriaHiddenOnDecorative`. -/
def checkMissingAriaHiddenOnDecorative (line : Str) (lineNumber : Nat) :
    Option AccessibilityIssue :=
  let trimmedLine := trim line
  if includes trimmedLine "<img".toList &&
      (includes trimmedLine "decorative".toList || includes trimmedLine "ornament".toList ||
        includes trimmedLine "spacer".toList || includes trimmedLine "divider".toList) &&
      !includes trimmedLine "aria-hidden=\"true\"".toList then
    some ⟨lineNumber + 1,
      "Decorative image should have aria-hidden=\"true\"".toList,
      "MEDIUM".toList,
      ⟨lineNumber, 0, lineNumber, line.length⟩⟩
  else none

/-- `AriaLabelRoleChecker.checkConflictingAriaHiddenAndRole`. -/
def checkConflictingAriaHiddenAndRole (line : Str) (lineNumber : Nat) :
    Option AccessibilityIssue :=
  let trimmedLine := trim line
  if includes trimmedLine "aria-hidden=\"true\"".toList &&
      includes trimmedLine "role=".toList then
    some ⟨lineNumber + 1,
      "Element with aria-hidden=\"true\" should not have a role attribute".toList,
      "HIGH".toList,
      ⟨lineNumber, 0, lineNumber, line.length⟩⟩
  else none

/-- `AriaLabelRoleChecker.checkMissingAriaDisabled`. -/
def checkMissingAriaDisabled (line : Str) (lineNumber : Nat) : Option AccessibilityIssue :=
  let trimmedLine := trim line
  if (includes trimmedLine "disabled".toList || includes trimmedLine "readonly".toList) &&
      !includes trimmedLine "aria-disabled".toList &&
      (includes trimmedLine "<input".toList || includes trimmedLine "<button".toList ||
        includes trimmedLine "<select".toList) then
    some ⟨lineNumber + 1,
      "Disabled element should have aria-disabled=\"true\" for screen readers".toList,
      "MEDIUM".toList,
      ⟨lineNumber, 0, lineNumber, line.length⟩⟩
  else none

/-- `AriaLabelRoleChecker.checkMissingAriaRequired`. -/
def checkMissingAriaRequired (line : Str) (lineNumber : Nat) : Option AccessibilityIssue :=
  let trimmedLine := trim line
  if (includes trimmedLine "required".toList ||
        includes trimmedLine "aria-required=\"true\"".toList) &&
      !includes trimmedLine "aria-required".toList &&
      (includes trimmedLine "<input".toList || includes trimmedLine "<select".toList ||
        includes trimmedLine "<textarea".toList) then
    some ⟨lineNumber + 1,
      "Required form element should have aria-required=\"true\"".toList,
      "MEDIUM".toList,
      ⟨lineNumber, 0, lineNumber, line.length⟩⟩
  else none

/-- `AriaLabelRoleChecker.checkMissingAriaInvalid`. -/
def checkMissingAriaInvalid (line : Str) (lineNumber : Nat) : Option AccessibilityIssue :=
  let trimmedLine := trim line
  if (includes trimmedLine "error".toList || includes trimmedLine "invalid".toList ||
        includes trimmedLine "class=\"error\"".toList) &&
      !includes trimmedLine "aria-invalid".toList &&
      (includes trimmedLine "<input".toList || includes trimmedLine "<select".toList ||
        includes trimmedLine "<textarea".toList) then
    some ⟨lineNumber + 1,
      "Form element with validation error should have aria-invalid=\"true\"".toList,
      "MEDIUM".toList,
      ⟨lineNumber, 0, lineNumber, line.length⟩⟩
  else none

/-- `AriaLabelRoleChecker.checkEmptyButtonElements`: an empty (or
whitespace-only) button body with no aria-label/aria-labelledby/title. -/
def checkEmptyButtonElements (line : Str) (lineNumber : Nat) : Option AccessibilityIssue :=
  let trimmedLine := trim line
  if includes trimmedLine "<button".toList && includes trimmedLine "</button>".toList then
    match buttonContent trimmedLine with
    | some g =>
      let content := trim g
      if content.isEmpty || content.all Char.isWhitespace then
        let hasAccessibleName := includes trimmedLine "aria-label".toList ||
          includes trimmedLine "aria-labelledby".toList ||
          includes trimmedLine "title=".toList
        if !hasAccessibleName then
          some ⟨lineNumber + 1,
            "Empty button element needs accessible name (aria-label, aria-labelledby, or visible text)".toList,
            "HIGH".toList,
            ⟨lineNumber, 0, lineNumber, line.length⟩⟩
        else none
      else none
    | none => none
  else none

/-- `AriaLabelRoleChecker.checkAriaLabelAndRole`: all fifteen detectors in
declaration order, non-null results kept. -/
def checkAriaLabelAndRole (line : Str) (lineNumber : Nat) (fullText : Str) :
    List AccessibilityIssue :=
  [checkMissingAriaLabel line lineNumber,
   checkEmptyAriaLabel line lineNumber,
   checkRedundantAriaLabel line lineNumber,
   checkInvalidRole line lineNumber,
   checkRedundantRole line lineNumber,
   checkMissingAriaLabelledbyReference line lineNumber fullText,
   checkMissingAriaDescribedbyReference line lineNumber fullText,
   checkMissingAriaExpanded line lineNumber,
   checkIncorrectAriaExpanded line lineNumber,
   checkMissingAriaHiddenOnDecorative line lineNumber,
   checkConflictingAriaHiddenAndRole line lineNumber,
   checkMissingAriaDisabled line lineNumber,
   checkMissingAriaRequired line lineNumber,
   checkMissingAriaInvalid line lineNumber,
   checkEmptyButtonElements line lineNumber].filterMap id

end AriaLabelRoleChecker

namespace TabIndexChecker

/-- `TabIndexChecker.NATURALLY_FOCUSABLE` (tabIndexChecker.ts). -/
def NATURALLY_FOCUSABLE : List Str :=
  ["button".toList, "input".toList, "select".toList, "textarea".toList,
   "a".toList, "area".toList, "summary".toList, "details".toList]

/-- `TabIndexChecker.NON_FOCUSABLE`. -/
def NON_FOCUSABLE : List Str :=
  ["div".toList, "span".toList, "p".toList, "h1".toList, "h2".toList,
   "h3".toList, "h4".toList, "h5".toList, "h6".toList, "img".toList,
   "br".toList, "hr".toList]

/-- `TabIndexChecker.checkNegativeTabIndex`. -/
def checkNegativeTabIndex (line : Str) (lineNumber : Nat) : Option AccessibilityIssue :=
  let trimmedLine := trim line
  match scanFirst negTabIndexAt trimmedLine with
  | some tabIndexValue =>
    some ⟨lineNumber + 1,
      "Negative tabindex=\"".toList ++ tabIndexValue ++
        "\" removes element from tab order - ensure this is intentional".toList,
      "HIGH".toList,
      ⟨lineNumber, 0, lineNumber, line.length⟩⟩
  | none => none

/-- `TabIndexChecker.checkTabIndexZeroOnNonInteractive`. -/
def checkTabIndexZeroOnNonInteractive (line : Str) (lineNumber : Nat) :
    Option AccessibilityIssue :=
  let trimmedLine := trim line
  if includes trimmedLine "tabindex=\"0\"".toList ||
      includes trimmedLine ("tabindex=".toList ++ ['\'', '0', '\'']) then
    let isNonInteractive := NON_FOCUSABLE.any fun element =>
      includes trimmedLine ('<' :: element) && !includes trimmedLine "role=".toList
    if isNonInteractive then
      some ⟨lineNumber + 1,
        "Non-interactive element with tabindex=\"0\" - add role attribute or use semantic element".toList,
        "HIGH".toList,
        ⟨lineNumber, 0, lineNumber, line.length⟩⟩
    else none
  else none

/-- `TabIndexChecker.checkMissingTabIndexOnCustomInteractive`. -/
def checkMissingTabIndexOnCustomInteractive (line : Str) (lineNumber : Nat) :
    Option AccessibilityIssue :=
  let trimmedLine := trim line
  let hasInteractiveRole := includes trimmedLine "role=\"button\"".toList ||
    includes trimmedLine "role=\"link\"".toList ||
    includes trimmedLine "role=\"menuitem\"".toList ||
    includes trimmedLine "role=\"tab\"".toList ||
    includes trimmedLine "role=\"option\"".toList ||
    includes trimmedLine "role=\"checkbox\"".toList
  if hasInteractiveRole && !includes trimmedLine "tabindex=".toList then
    some ⟨lineNumber + 1,
      "Custom interactive element missing tabindex - add tabindex=\"0\" for keyboard accessibility".toList,
      "HIGH".toList,
      ⟨lineNumber, 0, lineNumber, line.length⟩⟩
  else none

/-- `TabIndexChecker.checkRedundantTabIndexOnFocusable`. -/
def checkRedundantTabIndexOnFocusable (line : Str) (lineNumber : Nat) :
    Option AccessibilityIssue :=
  let trimmedLine := trim line
  let isNaturallyFocusable := NATURALLY_FOCUSABLE.any fun element =>
    includes trimmedLine ('<' :: element)
  if isNaturallyFocusable && includes trimmedLine "tabindex=".toList then
    some ⟨lineNumber + 1,
      "Redundant tabindex on naturally focusable element - remove unless changing tab order".toList,
      "MEDIUM".toList,
      ⟨lineNumber, 0, lineNumber, line.length⟩⟩
  else none

/-- `TabIndexChecker.checkPositiveTabIndex`. -/
def checkPositiveTabIndex (line : Str) (lineNumber : Nat) : Option AccessibilityIssue :=
  let trimmedLine := trim line
  match scanFirst posTabIndexAt trimmedLine with
  | some tabIndexValue =>
    some ⟨lineNumber + 1,
      "Positive tabindex=\"".toList ++ tabIndexValue ++
        "\" disrupts natural tab order - use tabindex=\"0\" or negative values only".toList,
      "MEDIUM".toList,
      ⟨lineNumber, 0, lineNumber, line.length⟩⟩
  | none => none

/-- `TabIndexChecker.checkMissingTabIndexOnClickable`. -/
def checkMissingTabIndexOnClickable (line : Str) (lineNumber : Nat) :
    Option AccessibilityIssue :=
  let trimmedLine := trim line
  if (includes trimmedLine "onclick".toList || includes trimmedLine "onkeydown".toList) &&
      !includes trimmedLine "tabindex=".toList &&
      (includes trimmedLine "<div".toList || includes trimmedLine "<span".toList) then
    some ⟨lineNumber + 1,
      "Clickable element missing tabindex - add tabindex=\"0\" for keyboard accessibility".toList,
      "MEDIUM".toList,
      ⟨lineNumber, 0, lineNumber, line.length⟩⟩
  else none

/-- `TabIndexChecker.checkDisabledElementWithTabIndex`. -/
def checkDisabledElementWithTabIndex (line : Str) (lineNumber : Nat) :
    Option AccessibilityIssue :=
  let trimmedLine := trim line
  if (includes trimmedLine "disabled".toList ||
        includes trimmedLine "aria-disabled=\"true\"".toList) &&
      includes trimmedLine "tabindex=".toList then
    some ⟨lineNumber + 1,
      "Disabled element should not be focusable - remove tabindex or use tabindex=\"-1\"".toList,
      "MEDIUM".toList,
      ⟨lineNumber, 0, lineNumber, line.length⟩⟩
  else none

/-- `TabIndexChecker.checkTabIndexOnHiddenElement`. -/
def checkTabIndexOnHiddenElement (line : Str) (lineNumber : Nat) :
    Option AccessibilityIssue :=
  let trimmedLine := trim line
  if (includes trimmedLine "hidden".toList ||
        includes trimmedLine "aria-hidden=\"true\"".toList ||
        includes trimmedLine "style=\"display: none\"".toList ||
        includes trimmedLine "style=\"visibility: hidden\"".toList) &&
      includes trimmedLine "tabindex=".toList then
    some ⟨lineNumber + 1,
      "Hidden element should not be focusable - remove tabindex or use tabindex=\"-1\"".toList,
      "MEDIUM".toList,
      ⟨lineNumber, 0, lineNumber, line.length⟩⟩
  else none

/-- `TabIndexChecker.checkTabIndexOnDecorativeElement`. -/
def checkTabIndexOnDecorativeElement (line : Str) (lineNumber : Nat) :
    Option AccessibilityIssue :=
  let trimmedLine := trim line
  if (includes trimmedLine "decorative".toList || includes trimmedLine "ornament".toList ||
        includes trimmedLine "spacer".toList || includes trimmedLine "divider".toList) &&
      includes trimmedLine "tabindex=".toList then
    some ⟨lineNumber + 1,
      "Decorative element should not be focusable - remove tabindex or use tabindex=\"-1\"".toList,
      "LOW".toList,
      ⟨lineNumber, 0, lineNumber, line.length⟩⟩
  else none

/-- `TabIndexChecker.checkInconsistentTabIndexUsage`. -/
def checkInconsistentTabIndexUsage (line : Str) (lineNumber : Nat) :
    Option AccessibilityIssue :=
  let trimmedLine := trim line
  if includes trimmedLine "tabindex=".toList then
    match firstQuotedVal "tabindex=".toList trimmedLine with
    | some tabIndexValue =>
      if tabIndexValue == "1".toList || tabIndexValue == "2".toList ||
          tabIndexValue == "3".toList then
        some ⟨lineNumber + 1,
          "Low positive tabindex=\"".toList ++ tabIndexValue ++
            "\" may cause confusion - consider using tabindex=\"0\" or negative values".toList,
          "LOW".toList,
          ⟨lineNumber, 0, lineNumber, line.length⟩⟩
      else none
    | none => none
  else none

/-- `TabIndexChecker.checkMissingTabIndexOnModalTrigger`; the `&&` inside the
first disjunction binds tighter than `||`, as in the source. -/
def checkMissingTabIndexOnModalTrigger (line : Str) (lineNumber : Nat) :
    Option AccessibilityIssue :=
  let trimmedLine := trim line
  if (includes trimmedLine "data-toggle=\"modal\"".toList ||
        includes trimmedLine "data-bs-toggle=\"modal\"".toList ||
        includes trimmedLine "onclick".toList && includes trimmedLine "modal".toList) &&
      !includes trimmedLine "tabindex=".toList &&
      (includes trimmedLine "<div".toList || includes trimmedLine "<span".toList) then
    some ⟨lineNumber + 1,
      "Modal trigger element missing tabindex - add tabindex=\"0\" for keyboard accessibility".toList,
      "MEDIUM".toList,
      ⟨lineNumber, 0, lineNumber, line.length⟩⟩
  else none

/-- `TabIndexChecker.checkTabIndexOnPresentationRole`. -/
def checkTabIndexOnPresentationRole (line : Str) (lineNumber : Nat) :
    Option AccessibilityIssue :=
  let trimmedLine := trim line
  if includes trimmedLine "role=\"presentation\"".toList &&
      includes trimmedLine "tabindex=".toList then
    some ⟨lineNumber + 1,
      "Element with role=\"presentation\" should not be focusable - remove tabindex".toList,
      "HIGH".toList,
      ⟨lineNumber, 0, lineNumber, line.length⟩⟩
  else none

/-- `TabIndexChecker.checkTabIndexOnNoneRole`. -/
def checkTabIndexOnNoneRole (line : Str) (lineNumber : Nat) : Option AccessibilityIssue :=
  let trimmedLine := trim line
  if includes trimmedLine "role=\"none\"".toList &&
      includes trimmedLine "tabindex=".toList then
    some ⟨lineNumber + 1,
      "Element with role=\"none\" should not be focusable - remove tabindex".toList,
      "HIGH".toList,
      ⟨lineNumber, 0, lineNumber, line.length⟩⟩
  else none

/-- `TabIndexChecker.checkTabIndexOnAriaHidden`. -/
def checkTabIndexOnAriaHidden (line : Str) (lineNumber : Nat) : Option AccessibilityIssue :=
  let trimmedLine := trim line
  if includes trimmedLine "aria-hidden=\"true\"".toList &&
      includes trimmedLine "tabindex=".toList then
    some ⟨lineNumber + 1,
      "Element with aria-hidden=\"true\" should not be focusable - remove tabindex".toList,
      "HIGH".toList,
      ⟨lineNumber, 0, lineNumber, line.length⟩⟩
  else none

/-- `TabIndexChecker.checkMissingTabIndexOnCustomFormControl`. -/
def checkMissingTabIndexOnCustomFormControl (line : Str) (lineNumber : Nat) :
    Option AccessibilityIssue :=
  let trimmedLine := trim line
  if (includes trimmedLine "role=\"combobox\"".toList ||
        includes trimmedLine "role=\"slider\"".toList ||
        includes trimmedLine "role=\"spinbutton\"".toList) &&
      !includes trimmedLine "tabindex=".toList then
    some ⟨lineNumber + 1,
      "Custom form control missing tabindex - add tabindex=\"0\" for keyboard accessibility".toList,
      "MEDIUM".toList,
      ⟨lineNumber, 0, lineNumber, line.length⟩⟩
  else none

/-- `TabIndexChecker.checkTabIndexOnNonInteractiveElement`. -/
def checkTabIndexOnNonInteractiveElement (line : Str) (lineNumber : Nat) :
    Option AccessibilityIssue :=
  let trimmedLine := trim line
  if (includes trimmedLine "<p".toList || includes trimmedLine "<h1".toList ||
        includes trimmedLine "<h2".toList || includes trimmedLine "<h3".toList ||
        includes trimmedLine "<h4".toList || includes trimmedLine "<h5".toList ||
        includes trimmedLine "<h6".toList || includes trimmedLine "<img".toList) &&
      includes trimmedLine "tabindex=".toList && !includes trimmedLine "role=".toList then
    some ⟨lineNumber + 1,
      "Non-interactive element with tabindex - consider if this element should be focusable".toList,
      "LOW".toList,
      ⟨lineNumber, 0, lineNumber, line.length⟩⟩
  else none

/-- `TabIndexChecker.checkTabIndex`: all sixteen detectors in declaration
order (HIGH block, MEDIUM block, LOW block), non-null results kept. -/
def checkTabIndex (line : Str) (lineNumber : Nat) : List AccessibilityIssue :=
  [checkNegativeTabIndex line lineNumber,
   checkTabIndexZeroOnNonInteractive line lineNumber,
   checkMissingTabIndexOnCustomInteractive line lineNumber,
   checkTabIndexOnPresentationRole line lineNumber,
   checkTabIndexOnNoneRole line lineNumber,
   checkTabIndexOnAriaHidden line lineNumber,
   checkRedundantTabIndexOnFocusable line lineNumber,
   checkPositiveTabIndex line lineNumber,
   checkMissingTabIndexOnClickable line lineNumber,
   checkDisabledElementWithTabIndex line lineNumber,
   checkTabIndexOnHiddenElement line lineNumber,
   checkMissingTabIndexOnModalTrigger line lineNumber,
   checkMissingTabIndexOnCustomFormControl line lineNumber,
   checkTabIndexOnDecorativeElement line lineNumber,
   checkInconsistentTabIndexUsage line lineNumber,
   checkTabIndexOnNonInteractiveElement line lineNumber].filterMap id

end TabIndexChecker

namespace SemanticHtmlChecker

/-- `SemanticHtmlChecker.checkHeadingHierarchy` (semanticHtmlChecker.ts):
multiple `<h1>` tags in the document, else any heading level above 1. -/
def checkHeadingHierarchy (line : Str) (lineNumber : Nat) (fullText : Str) :
    Option AccessibilityIssue :=
  let trimmedLine := trim line
  if includes trimmedLine "<h1>".toList && decide (countH1Matches fullText > 1) then
    some ⟨lineNumber + 1,
      "Multiple h1 tags found - page should have only one h1 for proper document structure".toList,
      "HIGH".toList,
      ⟨lineNumber, 0, lineNumber, line.length⟩⟩
  else
    match firstHeadingLevel trimmedLine with
    | some d =>
      let currentLevel := d.toNat - '0'.toNat
      if currentLevel > 1 then
        some ⟨lineNumber + 1,
          "Heading h".toList ++ Nat.toDigits 10 currentLevel ++
            " detected - ensure proper heading hierarchy (h1 → h2 → h3, etc.)".toList,
          "MEDIUM".toList,
          ⟨lineNumber, 0, lineNumber, line.length⟩⟩
      else none
    | none => none

/-- `SemanticHtmlChecker.checkHtmlLangAttribute`. -/
def checkHtmlLangAttribute (line : Str) (lineNumber : Nat) : Option AccessibilityIssue :=
  let trimmedLine := trim line
  if includes trimmedLine "<html".toList && !includes trimmedLine "lang=".toList then
    some ⟨lineNumber + 1,
      "Missing lang attribute on html tag - required for screen readers and language detection".toList,
      "HIGH".toList,
      ⟨lineNumber, 0, lineNumber, line.length⟩⟩
  else none

/-- `SemanticHtmlChecker.checkListStructure`. -/
def checkListStructure (line : Str) (lineNumber : Nat) : Option AccessibilityIssue :=
  let trimmedLine := trim line
  if includes trimmedLine "<li>".toList && !includes trimmedLine "<ul".toList &&
      !includes trimmedLine "<ol".toList then
    some ⟨lineNumber + 1,
      "List item (li) found without proper list container (ul/ol)".toList,
      "HIGH".toList,
      ⟨lineNumber, 0, lineNumber, line.length⟩⟩
  else if includes trimmedLine "<ul".toList && includes trimmedLine "<ol".toList then
    some ⟨lineNumber + 1,
      "Mixed list types (ul and ol) in same line - ensure proper nesting".toList,
      "MEDIUM".toList,
      ⟨lineNumber, 0, lineNumber, line.length⟩⟩
  else none

/-- `SemanticHtmlChecker.checkTableStructure`. -/
def checkTableStructure (line : Str) (lineNumber : Nat) : Option AccessibilityIssue :=
  let trimmedLine := trim line
  if includes trimmedLine "<td>".toList && !includes trimmedLine "<table".toList &&
      !includes trimmedLine "<tr".toList then
    some ⟨lineNumber + 1,
      "Table cell (td) found without proper table structure (table > tr > td)".toList,
      "HIGH".toList,
      ⟨lineNumber, 0, lineNumber, line.length⟩⟩
  else if includes trimmedLine "<th>".toList && !includes trimmedLine "<table".toList &&
      !includes trimmedLine "<tr".toList then
    some ⟨lineNumber + 1,
      "Table header (th) found without proper table structure (table > tr > th)".toList,
      "HIGH".toList,
      ⟨lineNumber, 0, lineNumber, line.length⟩⟩
  else if includes trimmedLine "<table".toList && !includes trimmedLine "caption".toList &&
      !includes trimmedLine "summary".toList then
    some ⟨lineNumber + 1,
      "Table missing caption or summary - add caption for table description".toList,
      "MEDIUM".toList,
      ⟨lineNumber, 0, lineNumber, line.length⟩⟩
  else none

/-- `SemanticHtmlChecker.checkFormStructure`. -/
def checkFormStructure (line : Str) (lineNumber : Nat) : Option AccessibilityIssue :=
  let trimmedLine := trim line
  if (includes trimmedLine "<input".toList || includes trimmedLine "<select".toList ||
        includes trimmedLine "<textarea".toList) &&
      !includes trimmedLine "aria-label".toList &&
      !includes trimmedLine "aria-labelledby".toList &&
      !includes trimmedLine "<label".toList then
    some ⟨lineNumber + 1,
      "Form control missing label - add label, aria-label, or aria-labelledby".toList,
      "HIGH".toList,
      ⟨lineNumber, 0, lineNumber, line.length⟩⟩
  else if includes trimmedLine "<fieldset".toList &&
      !includes trimmedLine "<legend".toList then
    some ⟨lineNumber + 1,
      "Fieldset missing legend - add legend to describe fieldset purpose".toList,
      "HIGH".toList,
      ⟨lineNumber, 0, lineNumber, line.length⟩⟩
  else none

/-- `SemanticHtmlChecker.checkButtonUsage`. -/
def checkButtonUsage (line : Str) (lineNumber : Nat) : Option AccessibilityIssue :=
  let trimmedLine := trim line
  if (includes trimmedLine "<div".toList || includes trimmedLine "<span".toList) &&
      includes trimmedLine "onclick".toList &&
      !includes trimmedLine "role=\"button\"".toList then
    some ⟨lineNumber + 1,
      "Use semantic button element instead of div/span with onclick for better accessibility".toList,
      "HIGH".toList,
      ⟨lineNumber, 0, lineNumber, line.length⟩⟩
  else if includes trimmedLine "<button".toList &&
      !includes trimmedLine "aria-label".toList &&
      !includes trimmedLine "aria-labelledby".toList &&
      !hasTagMatch "<button".toList "</button>".toList trimmedLine then
    some ⟨lineNumber + 1,
      "Button missing accessible text - add text content or aria-label".toList,
      "HIGH".toList,
      ⟨lineNumber, 0, lineNumber, line.length⟩⟩
  else none

/-- `SemanticHtmlChecker.checkLinkUsage`. -/
def checkLinkUsage (line : Str) (lineNumber : Nat) : Option AccessibilityIssue :=
  let trimmedLine := trim line
  if includes trimmedLine "<a".toList &&
      !includes trimmedLine "aria-label".toList &&
      !includes trimmedLine "aria-labelledby".toList &&
      !hasTagMatch "<a".toList "</a>".toList trimmedLine then
    some ⟨lineNumber + 1,
      "Link missing accessible text - add text content or aria-label".toList,
      "HIGH".toList,
      ⟨lineNumber, 0, lineNumber, line.length⟩⟩
  else if includes trimmedLine "<a".toList &&
      (includes trimmedLine ">click here<".toList ||
        includes trimmedLine ">read more<".toList ||
        includes trimmedLine ">here<".toList || includes trimmedLine ">more<".toList) then
    some ⟨lineNumber + 1,
      "Link text is not descriptive - use meaningful link text instead of \"click here\" or \"read more\"".toList,
      "MEDIUM".toList,
      ⟨lineNumber, 0, lineNumber, line.length⟩⟩
  else none

/-- `SemanticHtmlChecker.checkLandmarkUsage`. -/
def checkLandmarkUsage (line : Str) (lineNumber : Nat) : Option AccessibilityIssue :=
  let trimmedLine := trim line
  if includes trimmedLine "<body".toList &&
      !includes trimmedLine "role=\"main\"".toList &&
      !includes trimmedLine "<main".toList then
    some ⟨lineNumber + 1,
      "Page missing main landmark - add <main> or role=\"main\" for primary content".toList,
      "MEDIUM".toList,
      ⟨lineNumber, 0, lineNumber, line.length⟩⟩
  else if includes trimmedLine "<main".toList ||
      includes trimmedLine "role=\"main\"".toList then
    some ⟨lineNumber + 1,
      "Main landmark detected - ensure only one main landmark per page".toList,
      "MEDIUM".toList,
      ⟨lineNumber, 0, lineNumber, line.length⟩⟩
  else none

/-- `SemanticHtmlChecker.checkSectioningElements`. -/
def checkSectioningElements (line : Str) (lineNumber : Nat) : Option AccessibilityIssue :=
  let trimmedLine := trim line
  if (includes trimmedLine "<section".toList || includes trimmedLine "<article".toList) &&
      !includes trimmedLine "<h1".toList && !includes trimmedLine "<h2".toList &&
      !includes trimmedLine "<h3".toList && !includes trimmedLine "<h4".toList &&
      !includes trimmedLine "<h5".toList && !includes trimmedLine "<h6".toList then
    some ⟨lineNumber + 1,
      "Section/article should have a heading to describe its purpose".toList,
      "MEDIUM".toList,
      ⟨lineNumber, 0, lineNumber, line.length⟩⟩
  else none

/-- `SemanticHtmlChecker.checkNavigationStructure`. -/
def checkNavigationStructure (line : Str) (lineNumber : Nat) : Option AccessibilityIssue :=
  let trimmedLine := trim line
  if includes trimmedLine "<nav".toList && !includes trimmedLine "<ul".toList &&
      !includes trimmedLine "<ol".toList then
    some ⟨lineNumber + 1,
      "Navigation should use list structure (ul/ol) for better screen reader support".toList,
      "MEDIUM".toList,
      ⟨lineNumber, 0, lineNumber, line.length⟩⟩
  else none

/-- `SemanticHtmlChecker.checkDocumentStructure`. -/
def checkDocumentStructure (line : Str) (lineNumber : Nat) (fullText : Str) :
    Option AccessibilityIssue :=
  let trimmedLine := trim line
  if includes trimmedLine "<head".toList && !includes fullText "<title>".toList then
    some ⟨lineNumber + 1,
      "Document missing title element - add <title> for page identification".toList,
      "HIGH".toList,
      ⟨lineNumber, 0, lineNumber, line.length⟩⟩
  else if includes trimmedLine "<head".toList &&
      !includes fullText "viewport".toList then
    some ⟨lineNumber + 1,
      "Missing viewport meta tag - add for responsive design and mobile accessibility".toList,
      "MEDIUM".toList,
      ⟨lineNumber, 0, lineNumber, line.length⟩⟩
  else none

/-- `SemanticHtmlChecker.checkSemanticHtml`: the eleven detectors in
declaration order, non-null results kept. -/
def checkSemanticHtml (line : Str) (lineNumber : Nat) (fullText : Str) :
    List AccessibilityIssue :=
  [checkHeadingHierarchy line lineNumber fullText,
   checkHtmlLangAttribute line lineNumber,
   checkListStructure line lineNumber,
   checkTableStructure line lineNumber,
   checkFormStructure line lineNumber,
   checkButtonUsage line lineNumber,
   checkLinkUsage line lineNumber,
   checkLandmarkUsage line lineNumber,
   checkSectioningElements line lineNumber,
   checkNavigationStructure line lineNumber,
   checkDocumentStructure line lineNumber fullText].filterMap id

end SemanticHtmlChecker

namespace AccessibilityChecker

/-- `AccessibilityChecker.getSeverity` (accessibilityChecker.ts): the switch
mapping severity strings to `vscode.DiagnosticSeverity`. -/
def getSeverity (severity : Str) : DiagnosticSeverity :=
  if severity == "HIGH".toList then DiagnosticSeverity.error
  else if severity == "MEDIUM".toList then DiagnosticSeverity.warning
  else if severity == "LOW".toList then DiagnosticSeverity.information
  else DiagnosticSeverity.information

/-- `AccessibilityChecker.checkAccessibilityIssues` (accessibilityChecker.ts),
restricted to its observable issue list: split the document on `'\n'`, run
the six family runners on every line in declaration order, and push every
resulting issue in order.  Diagnostic conversion and console output consume
this list without reordering it. -/
def checkAccessibilityIssues (text : Str) : List AccessibilityIssue :=
  let lines := splitOnNl text
  lines.enum.foldl
    (fun issues p =>
      let lineNumber := p.1
      let line := p.2
      let imageIssues := ImageChecker.checkImages line lineNumber
      let formIssues := FormElementsChecker.checkFormElements line lineNumber
      let otherIssues := OtherAccessibilityChecker.checkOtherAccessibility line lineNumber text
      let ariaRoleIssues := AriaLabelRoleChecker.checkAriaLabelAndRole line lineNumber text
      let tabIndexIssues := TabIndexChecker.checkTabIndex line lineNumber
      let semanticHtmlIssues := SemanticHtmlChecker.checkSemanticHtml line lineNumber text
      let allIssues := imageIssues ++ formIssues ++ otherIssues ++ ariaRoleIssues ++
        tabIndexIssues ++ semanticHtmlIssues
      issues ++ allIssues)
    []

end AccessibilityChecker

/-- The `AltFixResult` interface of altTagAutoFixer.ts. -/
structure AltFixResult where
  success : Bool
  altText : Option Str
  error : Option Str
deriving DecidableEq, Repr

/-- Outcome of the awaited OpenAI chat-completion call inside
`generateAltText`: either the promise rejected, or it resolved with
`completion.choices[0]?.message?.content` (possibly absent). -/
inductive ApiOutcome where
  | thrown : Str → ApiOutcome
  | returned : Option Str → ApiOutcome
deriving DecidableEq, Repr

namespace AltTagAutoFixer

/-- `AltTagAutoFixer.generateAltText` (altTagAutoFixer.ts): the external
network call is modelled by its `ApiOutcome`; `initialized` models the result
of `initializeOpenAI()` (false when the API key is missing).  An empty or
missing response content is mapped to a failure value, and a rejected call is
caught and mapped to a failure value — the function never throws. -/
def generateAltText (initialized : Bool) (api : ApiOutcome) : AltFixResult :=
  if !initialized then
    ⟨false, none, some "OpenAI not initialized".toList⟩
  else
    match api with
    | ApiOutcome.thrown e =>
      ⟨false, none, some ("OpenAI API error: ".toList ++ e)⟩
    | ApiOutcome.returned content =>
      let altText := content.map trim
      match altText with
      | none => ⟨false, none, some "No alt text generated".toList⟩
      | some t =>
        if t.isEmpty then ⟨false, none, some "No alt text generated".toList⟩
        else ⟨true, some t, none⟩

/-- A `vscode.WorkspaceEdit` holding the single `replace` issued by the
fixer: the replaced single-line range and the replacement text. -/
structure WorkspaceEdit where
  editRange : VsRange
  newText : Str
deriving DecidableEq, Repr

/-- `AltTagAutoFixer.fixSpecificImageTag` (altTagAutoFixer.ts): the awaited
`generateAltText` call is modelled by passing its `AltFixResult` outcome as
the `result` argument; the `document` parameter of the source only supplies
the uri for the edit and is omitted.  Returns the computed edit, or `none`
in every guard branch (`null` in the source). -/
def fixSpecificImageTag (lineNumber : Nat) (lineText : Str) (result : AltFixResult) :
    Option WorkspaceEdit :=
  let trimmedLine := trim lineText
  if !includes trimmedLine "<img".toList || includes trimmedLine "alt=".toList then
    none
  else
    match firstImgSrc trimmedLine with
    | none => none
    | some _imageSrc =>
      if !result.success ||
          (match result.altText with | none => true | some t => t.isEmpty) then
        none
      else
        let altText := result.altText.getD []
        match firstOcc "<img".toList lineText with
        | none => none
        | some imgTagStart =>
          match indexOfFrom '>' imgTagStart lineText with
          | none => none
          | some imgTagEnd =>
            let beforeAlt := lineText.take imgTagEnd
            let afterAlt := lineText.drop imgTagEnd
            let newLine := beforeAlt ++ (" alt=\"".toList ++ altText ++ "\"".toList) ++ afterAlt
            some ⟨⟨lineNumber, 0, lineNumber, lineText.length⟩, newLine⟩

/-- Modelled from the spec: the host editor's `workspace.applyEdit` for the
single-line replacement edits produced here (vscode API, not repository
code).  An absent edit leaves the document text unchanged byte-for-byte; a
present edit replaces the given column range of the given line. -/
def applyOptEdit (document : Str) : Option WorkspaceEdit → Str
  | none => document
  | some e =>
    joinNl ((splitOnNl document).enum.map fun p =>
      if p.1 = e.editRange.startLine then
        p.2.take e.editRange.startCol ++ e.newText ++ p.2.drop e.editRange.endCol
      else p.2)

end AltTagAutoFixer

/-- The span discipline every detector follows: the issue's range covers the
whole physical (untrimmed) line and its display line is the zero-based index
plus one. -/
abbrev wholeLine (line : Str) (n : Nat) (i : AccessibilityIssue) : Prop :=
  i.range = ⟨n, 0, n, line.length⟩ ∧ i.line = n + 1

/-! ### Helper lemmas about the string primitives -/

theorem includes_iff {s pat : Str} : includes s pat = true ↔ pat <:+: s := by
  simp [includes]

theorem includes_of_includes_of_sub {s p q : Str} (h : includes s q = true)
    (hpq : p <:+: q) : includes s p = true :=
  includes_iff.mpr (hpq.trans (includes_iff.mp h))

theorem sub_dropWhile {p : Str} (f : Char → Bool) (hp : ∀ c ∈ p, f c = false) :
    ∀ {s : Str}, p <:+: s → p <:+: s.dropWhile f := by
  intro s
  induction s with
  | nil =>
    intro h
    simpa [List.dropWhile] using h
  | cons c t ih =>
    intro h
    cases hf : f c with
    | false =>
      rw [List.dropWhile_cons_of_neg (by simp [hf])]
      exact h
    | true =>
      rw [List.dropWhile_cons_of_pos (by simp [hf])]
      rcases List.infix_cons_iff.mp h with hpre | hsub
      · match p, hpre with
        | [], _ => exact List.nil_infix
        | ph :: pt, hpre =>
          obtain ⟨rfl, -⟩ := List.cons_prefix_cons.mp hpre
          exact absurd (hp ph (List.mem_cons_self ph pt)) (by simp [hf])
      · exact ih hsub

theorem sub_trimLeft {p s : Str} (hp : ∀ c ∈ p, c.isWhitespace = false)
    (h : p <:+: s) : p <:+: trimLeft s :=
  sub_dropWhile Char.isWhitespace hp h

theorem sub_trimRight {p s : Str} (hp : ∀ c ∈ p, c.isWhitespace = false)
    (h : p <:+: s) : p <:+: trimRight s := by
  have hrev : p.reverse <:+: s.reverse := List.reverse_infix.mpr h
  have hprev : ∀ c ∈ p.reverse, c.isWhitespace = false := fun c hc =>
    hp c (List.mem_reverse.mp hc)
  have : p.reverse <:+: s.reverse.dropWhile Char.isWhitespace :=
    sub_dropWhile Char.isWhitespace hprev hrev
  have := List.reverse_infix.mpr this
  simpa [trimRight] using this

theorem sub_trim {p s : Str} (hp : ∀ c ∈ p, c.isWhitespace = false)
    (h : p <:+: s) : p <:+: trim s :=
  sub_trimRight hp (sub_trimLeft hp h)

theorem trimLeft_sub (s : Str) : trimLeft s <:+: s :=
  (List.dropWhile_suffix Char.isWhitespace).isInfix

theorem trimRight_sub (s : Str) : trimRight s <:+: s := by
  have : (s.reverse.dropWhile Char.isWhitespace).reverse <+: s.reverse.reverse :=
    List.reverse_prefix.mpr (List.dropWhile_suffix Char.isWhitespace)
  rw [List.reverse_reverse] at this
  exact this.isInfix

theorem trim_sub (s : Str) : trim s <:+: s :=
  (trimRight_sub (trimLeft s)).trans (trimLeft_sub s)

theorem includes_trim_of_includes {s p : Str} (hp : ∀ c ∈ p, c.isWhitespace = false)
    (h : includes s p = true) : includes (trim s) p = true :=
  includes_iff.mpr (sub_trim hp (includes_iff.mp h))

theorem includes_of_includes_trim {s p : Str} (h : includes (trim s) p = true) :
    includes s p = true :=
  includes_iff.mpr ((includes_iff.mp h).trans (trim_sub s))

theorem splitOnNl_head_prefix : ∀ s : Str, ∃ l ls, splitOnNl s = l :: ls ∧ l <+: s := by
  intro s
  induction s with
  | nil => exact ⟨[], [], rfl, List.nil_prefix⟩
  | cons c t ih =>
    by_cases hc : c = '\n'
    · exact ⟨[], splitOnNl t, by simp [splitOnNl, hc], List.nil_prefix⟩
    · obtain ⟨l, ls, heq, hpre⟩ := ih
      exact ⟨c :: l, ls, by simp [splitOnNl, hc, heq],
        List.cons_prefix_cons.mpr ⟨rfl, hpre⟩⟩

theorem sub_of_mem_splitOnNl : ∀ {s l : Str}, l ∈ splitOnNl s → l <:+: s := by
  intro s
  induction s with
  | nil =>
    intro l hl
    rw [show splitOnNl [] = [[]] from rfl, List.mem_singleton] at hl
    subst hl
    exact List.nil_infix
  | cons c t ih =>
    intro l hl
    by_cases hc : c = '\n'
    · rw [show splitOnNl (c :: t) = [] :: splitOnNl t by simp [splitOnNl, hc],
        List.mem_cons] at hl
      rcases hl with rfl | hl
      · exact List.nil_infix
      · exact List.infix_cons (ih hl)
    · obtain ⟨l₀, ls, heq, hpre⟩ := splitOnNl_head_prefix t
      rw [show splitOnNl (c :: t) = (c :: l₀) :: ls by simp [splitOnNl, hc, heq],
        List.mem_cons] at hl
      rcases hl with rfl | hl
      · exact (List.cons_prefix_cons.mpr ⟨rfl, hpre⟩).isInfix
      · exact List.infix_cons (ih (heq ▸ List.mem_cons_of_mem l₀ hl))

theorem mem_of_mem_filterMap_id {l : List (Option β)} {b : β}
    (h : b ∈ l.filterMap id) : some b ∈ l := by
  simp only [List.mem_filterMap, id] at h
  obtain ⟨a, ha, rfl⟩ := h
  exact ha

theorem foldl_append_flatten (l : List α) (f : α → List β) :
    ∀ init : List β, l.foldl (fun acc a => acc ++ f a) init = init ++ (l.map f).flatten := by
  induction l with
  | nil => intro init; simp
  | cons a t ih =>
    intro init
    simp only [List.foldl_cons, ih, List.map_cons, List.flatten_cons, List.append_assoc]

/-! ### Whole-line span of every detector in the six engine families -/

theorem span_Image_checkImageAltAttributes (line : Str) (n : Nat) :
    ∀ i, ImageChecker.checkImageAltAttributes line n = some i → wholeLine line n i := by
  intro i h
  simp only [ImageChecker.checkImageAltAttributes] at h
  repeat' split at h
  all_goals first
    | exact Option.noConfusion h
    | (injection h with h; subst h; exact ⟨rfl, rfl⟩)

theorem span_Image_checkEmptyAltAttributes (line : Str) (n : Nat) :
    ∀ i, ImageChecker.checkEmptyAltAttributes line n = some i → wholeLine line n i := by
  intro i h
  simp only [ImageChecker.checkEmptyAltAttributes] at h
  repeat' split at h
  all_goals first
    | exact Option.noConfusion h
    | (injection h with h; subst h; exact ⟨rfl, rfl⟩)

theorem span_Form_checkFormInputLabels (line : Str) (n : Nat) :
    ∀ i, FormElementsChecker.checkFormInputLabels line n = some i → wholeLine line n i := by
  intro i h
  simp only [FormElementsChecker.checkFormInputLabels] at h
  repeat' split at h
  all_goals first
    | exact Option.noConfusion h
    | (injection h with h; subst h; exact ⟨rfl, rfl⟩)

theorem span_Form_checkFormLabels (line : Str) (n : Nat) :
    ∀ i, FormElementsChecker.checkFormLabels line n = some i → wholeLine line n i := by
  intro i h
  simp only [FormElementsChecker.checkFormLabels] at h
  repeat' split at h
  all_goals first
    | exact Option.noConfusion h
    | (injection h with h; subst h; exact ⟨rfl, rfl⟩)

theorem span_Other_checkHeadingStructure (line : Str) (n : Nat) (fullText : Str) :
    ∀ i, OtherAccessibilityChecker.checkHeadingStructure line n fullText = some i → wholeLine line n i := by
  intro i h
  simp only [OtherAccessibilityChecker.checkHeadingStructure] at h
  repeat' split at h
  all_goals first
    | exact Option.noConfusion h
    | (injection h with h; subst h; exact ⟨rfl, rfl⟩)

theorem span_Other_checkHtmlLangAttribute (line : Str) (n : Nat) :
    ∀ i, OtherAccessibilityChecker.checkHtmlLangAttribute line n = some i → wholeLine line n i := by
  intro i h
  simp only [OtherAccessibilityChecker.checkHtmlLangAttribute] at h
  repeat' split at h
  all_goals first
    | exact Option.noConfusion h
    | (injection h with h; subst h; exact ⟨rfl, rfl⟩)

theorem span_Other_checkKeyboardAccessibility (line : Str) (n : Nat) :
    ∀ i, OtherAccessibilityChecker.checkKeyboardAccessibility line n = some i → wholeLine line n i := by
  intro i h
  simp only [OtherAccessibilityChecker.checkKeyboardAccessibility] at h
  repeat' split at h
  all_goals first
    | exact Option.noConfusion h
    | (injection h with h; subst h; exact ⟨rfl, rfl⟩)

theorem span_Other_checkColorOnlyInformation (line : Str) (n : Nat) :
    ∀ i, OtherAccessibilityChecker.checkColorOnlyInformation line n = some i → wholeLine line n i := by
  intro i h
  simp only [OtherAccessibilityChecker.checkColorOnlyInformation] at h
  repeat' split at h
  all_goals first
    | exact Option.noConfusion h
    | (injection h with h; subst h; exact ⟨rfl, rfl⟩)

theorem span_Other_checkFocusIndicators (line : Str) (n : Nat) :
    ∀ i, OtherAccessibilityChecker.checkFocusIndicators line n = some i → wholeLine line n i := by
  intro i h
  simp only [OtherAccessibilityChecker.checkFocusIndicators] at h
  repeat' split at h
  all_goals first
    | exact Option.noConfusion h
    | (injection h with h; subst h; exact ⟨rfl, rfl⟩)

theorem span_Aria_checkMissingAriaLabel (line : Str) (n : Nat) :
    ∀ i, AriaLabelRoleChecker.checkMissingAriaLabel line n = some i → wholeLine line n i := by
  intro i h
  simp only [AriaLabelRoleChecker.checkMissingAriaLabel] at h
  repeat' split at h
  all_goals first
    | exact Option.noConfusion h
    | (injection h with h; subst h; exact ⟨rfl, rfl⟩)

theorem span_Aria_checkEmptyAriaLabel (line : Str) (n : Nat) :
    ∀ i, AriaLabelRoleChecker.checkEmptyAriaLabel line n = some i → wholeLine line n i := by
  intro i h
  simp only [AriaLabelRoleChecker.checkEmptyAriaLabel] at h
  repeat' split at h
  all_goals first
    | exact Option.noConfusion h
    | (injection h with h; subst h; exact ⟨rfl, rfl⟩)

theorem span_Aria_checkRedundantAriaLabel (line : Str) (n : Nat) :
    ∀ i, AriaLabelRoleChecker.checkRedundantAriaLabel line n = some i → wholeLine line n i := by
  intro i h
  simp only [AriaLabelRoleChecker.checkRedundantAriaLabel] at h
  repeat' split at h
  all_goals first
    | exact Option.noConfusion h
    | (injection h with h; subst h; exact ⟨rfl, rfl⟩)

theorem span_Aria_checkInvalidRole (line : Str) (n : Nat) :
    ∀ i, AriaLabelRoleChecker.checkInvalidRole line n = some i → wholeLine line n i := by
  intro i h
  simp only [AriaLabelRoleChecker.checkInvalidRole] at h
  repeat' split at h
  all_goals first
    | exact Option.noConfusion h
    | (injection h with h; subst h; exact ⟨rfl, rfl⟩)

theorem span_Aria_checkRedundantRole (line : Str) (n : Nat) :
    ∀ i, AriaLabelRoleChecker.checkRedundantRole line n = some i → wholeLine line n i := by
  intro i h
  simp only [AriaLabelRoleChecker.checkRedundantRole] at h
  repeat' split at h
  all_goals first
    | exact Option.noConfusion h
    | (injection h with h; subst h; exact ⟨rfl, rfl⟩)

theorem span_Aria_checkMissingAriaLabelledbyReference (line : Str) (n : Nat) (fullText : Str) :
    ∀ i, AriaLabelRoleChecker.checkMissingAriaLabelledbyReference line n fullText = some i → wholeLine line n i := by
  intro i h
  simp only [AriaLabelRoleChecker.checkMissingAriaLabelledbyReference] at h
  repeat' split at h
  all_goals first
    | exact Option.noConfusion h
    | (injection h with h; subst h; exact ⟨rfl, rfl⟩)

theorem span_Aria_checkMissingAriaDescribedbyReference (line : Str) (n : Nat) (fullText : Str) :
    ∀ i, AriaLabelRoleChecker.checkMissingAriaDescribedbyReference line n fullText = some i → wholeLine line n i := by
  intro i h
  simp only [AriaLabelRoleChecker.checkMissingAriaDescribedbyReference] at h
  repeat' split at h
  all_goals first
    | exact Option.noConfusion h
    | (injection h with h; subst h; exact ⟨rfl, rfl⟩)

theorem span_Aria_checkMissingAriaExpanded (line : Str) (n : Nat) :
    ∀ i, AriaLabelRoleChecker.checkMissingAriaExpanded line n = some i → wholeLine line n i := by
  intro i h
  simp only [AriaLabelRoleChecker.checkMissingAriaExpanded] at h
  repeat' split at h
  all_goals first
    | exact Option.noConfusion h
    | (injection h with h; subst h; exact ⟨rfl, rfl⟩)

theorem span_Aria_checkIncorrectAriaExpanded (line : Str) (n : Nat) :
    ∀ i, AriaLabelRoleChecker.checkIncorrectAriaExpanded line n = some i → wholeLine line n i := by
  intro i h
  simp only [AriaLabelRoleChecker.checkIncorrectAriaExpanded] at h
  repeat' split at h
  all_goals first
    | exact Option.noConfusion h
    | (injection h with h; subst h; exact ⟨rfl, rfl⟩)

theorem span_Aria_checkMissingAriaHiddenOnDecorative (line : Str) (n : Nat) :
    ∀ i, AriaLabelRoleChecker.checkMissingAriaHiddenOnDecorative line n = some i → wholeLine line n i := by
  intro i h
  simp only [AriaLabelRoleChecker.checkMissingAriaHiddenOnDecorative] at h
  repeat' split at h
  all_goals first
    | exact Option.noConfusion h
    | (injection h with h; subst h; exact ⟨rfl, rfl⟩)

theorem span_Aria_checkConflictingAriaHiddenAndRole (line : Str) (n : Nat) :
    ∀ i, AriaLabelRoleChecker.checkConflictingAriaHiddenAndRole line n = some i → wholeLine line n i := by
  intro i h
  simp only [AriaLabelRoleChecker.checkConflictingAriaHiddenAndRole] at h
  repeat' split at h
  all_goals first
    | exact Option.noConfusion h
    | (injection h with h; subst h; exact ⟨rfl, rfl⟩)

theorem span_Aria_checkMissingAriaDisabled (line : Str) (n : Nat) :
    ∀ i, AriaLabelRoleChecker.checkMissingAriaDisabled line n = some i → wholeLine line n i := by
  intro i h
  simp only [AriaLabelRoleChecker.checkMissingAriaDisabled] at h
  repeat' split at h
  all_goals first
    | exact Option.noConfusion h
    | (injection h with h; subst h; exact ⟨rfl, rfl⟩)

theorem span_Aria_checkMissingAriaRequired (line : Str) (n : Nat) :
    ∀ i, AriaLabelRoleChecker.checkMissingAriaRequired line n = some i → wholeLine line n i := by
  intro i h
  simp only [AriaLabelRoleChecker.checkMissingAriaRequired] at h
  repeat' split at h
  all_goals first
    | exact Option.noConfusion h
    | (injection h with h; subst h; exact ⟨rfl, rfl⟩)

theorem span_Aria_checkMissingAriaInvalid (line : Str) (n : Nat) :
    ∀ i, AriaLabelRoleChecker.checkMissingAriaInvalid line n = some i → wholeLine line n i := by
  intro i h
  simp only [AriaLabelRoleChecker.checkMissingAriaInvalid] at h
  repeat' split at h
  all_goals first
    | exact Option.noConfusion h
    | (injection h with h; subst h; exact ⟨rfl, rfl⟩)

theorem span_Aria_checkEmptyButtonElements (line : Str) (n : Nat) :
    ∀ i, AriaLabelRoleChecker.checkEmptyButtonElements line n = some i → wholeLine line n i := by
  intro i h
  simp only [AriaLabelRoleChecker.checkEmptyButtonElements] at h
  repeat' split at h
  all_goals first
    | exact Option.noConfusion h
    | (injection h with h; subst h; exact ⟨rfl, rfl⟩)

theorem span_Tab_checkNegativeTabIndex (line : Str) (n : Nat) :
    ∀ i, TabIndexChecker.checkNegativeTabIndex line n = some i → wholeLine line n i := by
  intro i h
  simp only [TabIndexChecker.checkNegativeTabIndex] at h
  repeat' split at h
  all_goals first
    | exact Option.noConfusion h
    | (injection h with h; subst h; exact ⟨rfl, rfl⟩)

theorem span_Tab_checkTabIndexZeroOnNonInteractive (line : Str) (n : Nat) :
    ∀ i, TabIndexChecker.checkTabIndexZeroOnNonInteractive line n = some i → wholeLine line n i := by
  intro i h
  simp only [TabIndexChecker.checkTabIndexZeroOnNonInteractive] at h
  repeat' split at h
  all_goals first
    | exact Option.noConfusion h
    | (injection h with h; subst h; exact ⟨rfl, rfl⟩)

theorem span_Tab_checkMissingTabIndexOnCustomInteractive (line : Str) (n : Nat) :
    ∀ i, TabIndexChecker.checkMissingTabIndexOnCustomInteractive line n = some i → wholeLine line n i := by
  intro i h
  simp only [TabIndexChecker.checkMissingTabIndexOnCustomInteractive] at h
  repeat' split at h
  all_goals first
    | exact Option.noConfusion h
    | (injection h with h; subst h; exact ⟨rfl, rfl⟩)

theorem span_Tab_checkTabIndexOnPresentationRole (line : Str) (n : Nat) :
    ∀ i, TabIndexChecker.checkTabIndexOnPresentationRole line n = some i → wholeLine line n i := by
  intro i h
  simp only [TabIndexChecker.checkTabIndexOnPresentationRole] at h
  repeat' split at h
  all_goals first
    | exact Option.noConfusion h
    | (injection h with h; subst h; exact ⟨rfl, rfl⟩)

theorem span_Tab_checkTabIndexOnNoneRole (line : Str) (n : Nat) :
    ∀ i, TabIndexChecker.checkTabIndexOnNoneRole line n = some i → wholeLine line n i := by
  intro i h
  simp only [TabIndexChecker.checkTabIndexOnNoneRole] at h
  repeat' split at h
  all_goals first
    | exact Option.noConfusion h
    | (injection h with h; subst h; exact ⟨rfl, rfl⟩)

theorem span_Tab_checkTabIndexOnAriaHidden (line : Str) (n : Nat) :
    ∀ i, TabIndexChecker.checkTabIndexOnAriaHidden line n = some i → wholeLine line n i := by
  intro i h
  simp only [TabIndexChecker.checkTabIndexOnAriaHidden] at h
  repeat' split at h
  all_goals first
    | exact Option.noConfusion h
    | (injection h with h; subst h; exact ⟨rfl, rfl⟩)

theorem span_Tab_checkRedundantTabIndexOnFocusable (line : Str) (n : Nat) :
    ∀ i, TabIndexChecker.checkRedundantTabIndexOnFocusable line n = some i → wholeLine line n i := by
  intro i h
  simp only [TabIndexChecker.checkRedundantTabIndexOnFocusable] at h
  repeat' split at h
  all_goals first
    | exact Option.noConfusion h
    | (injection h with h; subst h; exact ⟨rfl, rfl⟩)

theorem span_Tab_checkPositiveTabIndex (line : Str) (n : Nat) :
    ∀ i, TabIndexChecker.checkPositiveTabIndex line n = some i → wholeLine line n i := by
  intro i h
  simp only [TabIndexChecker.checkPositiveTabIndex] at h
  repeat' split at h
  all_goals first
    | exact Option.noConfusion h
    | (injection h with h; subst h; exact ⟨rfl, rfl⟩)

theorem span_Tab_checkMissingTabIndexOnClickable (line : Str) (n : Nat) :
    ∀ i, TabIndexChecker.checkMissingTabIndexOnClickable line n = some i → wholeLine line n i := by
  intro i h
  simp only [TabIndexChecker.checkMissingTabIndexOnClickable] at h
  repeat' split at h
  all_goals first
    | exact Option.noConfusion h
    | (injection h with h; subst h; exact ⟨rfl, rfl⟩)

theorem span_Tab_checkDisabledElementWithTabIndex (line : Str) (n : Nat) :
    ∀ i, TabIndexChecker.checkDisabledElementWithTabIndex line n = some i → wholeLine line n i := by
  intro i h
  simp only [TabIndexChecker.checkDisabledElementWithTabIndex] at h
  repeat' split at h
  all_goals first
    | exact Option.noConfusion h
    | (injection h with h; subst h; exact ⟨rfl, rfl⟩)

theorem span_Tab_checkTabIndexOnHiddenElement (line : Str) (n : Nat) :
    ∀ i, TabIndexChecker.checkTabIndexOnHiddenElement line n = some i → wholeLine line n i := by
  intro i h
  simp only [TabIndexChecker.checkTabIndexOnHiddenElement] at h
  repeat' split at h
  all_goals first
    | exact Option.noConfusion h
    | (injection h with h; subst h; exact ⟨rfl, rfl⟩)

theorem span_Tab_checkMissingTabIndexOnModalTrigger (line : Str) (n : Nat) :
    ∀ i, TabIndexChecker.checkMissingTabIndexOnModalTrigger line n = some i → wholeLine line n i := by
  intro i h
  simp only [TabIndexChecker.checkMissingTabIndexOnModalTrigger] at h
  repeat' split at h
  all_goals first
    | exact Option.noConfusion h
    | (injection h with h; subst h; exact ⟨rfl, rfl⟩)

theorem span_Tab_checkMissingTabIndexOnCustomFormControl (line : Str) (n : Nat) :
    ∀ i, TabIndexChecker.checkMissingTabIndexOnCustomFormControl line n = some i → wholeLine line n i := by
  intro i h
  simp only [TabIndexChecker.checkMissingTabIndexOnCustomFormControl] at h
  repeat' split at h
  all_goals first
    | exact Option.noConfusion h
    | (injection h with h; subst h; exact ⟨rfl, rfl⟩)

theorem span_Tab_checkTabIndexOnDecorativeElement (line : Str) (n : Nat) :
    ∀ i, TabIndexChecker.checkTabIndexOnDecorativeElement line n = some i → wholeLine line n i := by
  intro i h
  simp only [TabIndexChecker.checkTabIndexOnDecorativeElement] at h
  repeat' split at h
  all_goals first
    | exact Option.noConfusion h
    | (injection h with h; subst h; exact ⟨rfl, rfl⟩)

theorem span_Tab_checkInconsistentTabIndexUsage (line : Str) (n : Nat) :
    ∀ i, TabIndexChecker.checkInconsistentTabIndexUsage line n = some i → wholeLine line n i := by
  intro i h
  simp only [TabIndexChecker.checkInconsistentTabIndexUsage] at h
  repeat' split at h
  all_goals first
    | exact Option.noConfusion h
    | (injection h with h; subst h; exact ⟨rfl, rfl⟩)

theorem span_Tab_checkTabIndexOnNonInteractiveElement (line : Str) (n : Nat) :
    ∀ i, TabIndexChecker.checkTabIndexOnNonInteractiveElement line n = some i → wholeLine line n i := by
  intro i h
  simp only [TabIndexChecker.checkTabIndexOnNonInteractiveElement] at h
  repeat' split at h
  all_goals first
    | exact Option.noConfusion h
    | (injection h with h; subst h; exact ⟨rfl, rfl⟩)

theorem span_Semantic_checkHeadingHierarchy (line : Str) (n : Nat) (fullText : Str) :
    ∀ i, SemanticHtmlChecker.checkHeadingHierarchy line n fullText = some i → wholeLine line n i := by
  intro i h
  simp only [SemanticHtmlChecker.checkHeadingHierarchy] at h
  repeat' split at h
  all_goals first
    | exact Option.noConfusion h
    | (injection h with h; subst h; exact ⟨rfl, rfl⟩)

theorem span_Semantic_checkHtmlLangAttribute (line : Str) (n : Nat) :
    ∀ i, SemanticHtmlChecker.checkHtmlLangAttribute line n = some i → wholeLine line n i := by
  intro i h
  simp only [SemanticHtmlChecker.checkHtmlLangAttribute] at h
  repeat' split at h
  all_goals first
    | exact Option.noConfusion h
    | (injection h with h; subst h; exact ⟨rfl, rfl⟩)

theorem span_Semantic_checkListStructure (line : Str) (n : Nat) :
    ∀ i, SemanticHtmlChecker.checkListStructure line n = some i → wholeLine line n i := by
  intro i h
  simp only [SemanticHtmlChecker.checkListStructure] at h
  repeat' split at h
  all_goals first
    | exact Option.noConfusion h
    | (injection h with h; subst h; exact ⟨rfl, rfl⟩)

theorem span_Semantic_checkTableStructure (line : Str) (n : Nat) :
    ∀ i, SemanticHtmlChecker.checkTableStructure line n = some i → wholeLine line n i := by
  intro i h
  simp only [SemanticHtmlChecker.checkTableStructure] at h
  repeat' split at h
  all_goals first
    | exact Option.noConfusion h
    | (injection h with h; subst h; exact ⟨rfl, rfl⟩)

theorem span_Semantic_checkFormStructure (line : Str) (n : Nat) :
    ∀ i, SemanticHtmlChecker.checkFormStructure line n = some i → wholeLine line n i := by
  intro i h
  simp only [SemanticHtmlChecker.checkFormStructure] at h
  repeat' split at h
  all_goals first
    | exact Option.noConfusion h
    | (injection h with h; subst h; exact ⟨rfl, rfl⟩)

theorem span_Semantic_checkButtonUsage (line : Str) (n : Nat) :
    ∀ i, SemanticHtmlChecker.checkButtonUsage line n = some i → wholeLine line n i := by
  intro i h
  simp only [SemanticHtmlChecker.checkButtonUsage] at h
  repeat' split at h
  all_goals first
    | exact Option.noConfusion h
    | (injection h with h; subst h; exact ⟨rfl, rfl⟩)

theorem span_Semantic_checkLinkUsage (line : Str) (n : Nat) :
    ∀ i, SemanticHtmlChecker.checkLinkUsage line n = some i → wholeLine line n i := by
  intro i h
  simp only [SemanticHtmlChecker.checkLinkUsage] at h
  repeat' split at h
  all_goals first
    | exact Option.noConfusion h
    | (injection h with h; subst h; exact ⟨rfl, rfl⟩)

theorem span_Semantic_checkLandmarkUsage (line : Str) (n : Nat) :
    ∀ i, SemanticHtmlChecker.checkLandmarkUsage line n = some i → wholeLine line n i := by
  intro i h
  simp only [SemanticHtmlChecker.checkLandmarkUsage] at h
  repeat' split at h
  all_goals first
    | exact Option.noConfusion h
    | (injection h with h; subst h; exact ⟨rfl, rfl⟩)

theorem span_Semantic_checkSectioningElements (line : Str) (n : Nat) :
    ∀ i, SemanticHtmlChecker.checkSectioningElements line n = some i → wholeLine line n i := by
  intro i h
  simp only [SemanticHtmlChecker.checkSectioningElements] at h
  repeat' split at h
  all_goals first
    | exact Option.noConfusion h
    | (injection h with h; subst h; exact ⟨rfl, rfl⟩)

theorem span_Semantic_checkNavigationStructure (line : Str) (n : Nat) :
    ∀ i, SemanticHtmlChecker.checkNavigationStructure line n = some i → wholeLine line n i := by
  intro i h
  simp only [SemanticHtmlChecker.checkNavigationStructure] at h
  repeat' split at h
  all_goals first
    | exact Option.noConfusion h
    | (injection h with h; subst h; exact ⟨rfl, rfl⟩)

theorem span_Semantic_checkDocumentStructure (line : Str) (n : Nat) (fullText : Str) :
    ∀ i, SemanticHtmlChecker.checkDocumentStructure line n fullText = some i → wholeLine line n i := by
  intro i h
  simp only [SemanticHtmlChecker.checkDocumentStructure] at h
  repeat' split at h
  all_goals first
    | exact Option.noConfusion h
    | (injection h with h; subst h; exact ⟨rfl, rfl⟩)

/-! ### Whole-line span of each family runner -/

theorem span_Image_family (line : Str) (n : Nat) :
    ∀ i ∈ ImageChecker.checkImages line n, wholeLine line n i := by
  intro i hi
  simp only [ImageChecker.checkImages] at hi
  have h := mem_of_mem_filterMap_id hi
  simp only [List.mem_cons, List.not_mem_nil, or_false] at h
  rcases h with h | h
  · exact span_Image_checkImageAltAttributes line n i h.symm
  · exact span_Image_checkEmptyAltAttributes line n i h.symm

theorem span_Form_family (line : Str) (n : Nat) :
    ∀ i ∈ FormElementsChecker.checkFormElements line n, wholeLine line n i := by
  intro i hi
  simp only [FormElementsChecker.checkFormElements] at hi
  have h := mem_of_mem_filterMap_id hi
  simp only [List.mem_cons, List.not_mem_nil, or_false] at h
  rcases h with h | h
  · exact span_Form_checkFormInputLabels line n i h.symm
  · exact span_Form_checkFormLabels line n i h.symm

theorem span_Other_family (line : Str) (n : Nat) (fullText : Str) :
    ∀ i ∈ OtherAccessibilityChecker.checkOtherAccessibility line n fullText, wholeLine line n i := by
  intro i hi
  simp only [OtherAccessibilityChecker.checkOtherAccessibility] at hi
  have h := mem_of_mem_filterMap_id hi
  simp only [List.mem_cons, List.not_mem_nil, or_false] at h
  rcases h with h | h | h | h | h
  · exact span_Other_checkHeadingStructure line n fullText i h.symm
  · exact span_Other_checkHtmlLangAttribute line n i h.symm
  · exact span_Other_checkKeyboardAccessibility line n i h.symm
  · exact span_Other_checkColorOnlyInformation line n i h.symm
  · exact span_Other_checkFocusIndicators line n i h.symm

theorem span_Aria_family (line : Str) (n : Nat) (fullText : Str) :
    ∀ i ∈ AriaLabelRoleChecker.checkAriaLabelAndRole line n fullText, wholeLine line n i := by
  intro i hi
  simp only [AriaLabelRoleChecker.checkAriaLabelAndRole] at hi
  have h := mem_of_mem_filterMap_id hi
  simp only [List.mem_cons, List.not_mem_nil, or_false] at h
  rcases h with h | h | h | h | h | h | h | h | h | h | h | h | h | h | h
  · exact span_Aria_checkMissingAriaLabel line n i h.symm
  · exact span_Aria_checkEmptyAriaLabel line n i h.symm
  · exact span_Aria_checkRedundantAriaLabel line n i h.symm
  · exact span_Aria_checkInvalidRole line n i h.symm
  · exact span_Aria_checkRedundantRole line n i h.symm
  · exact span_Aria_checkMissingAriaLabelledbyReference line n fullText i h.symm
  · exact span_Aria_checkMissingAriaDescribedbyReference line n fullText i h.symm
  · exact span_Aria_checkMissingAriaExpanded line n i h.symm
  · exact span_Aria_checkIncorrectAriaExpanded line n i h.symm
  · exact span_Aria_checkMissingAriaHiddenOnDecorative line n i h.symm
  · exact span_Aria_checkConflictingAriaHiddenAndRole line n i h.symm
  · exact span_Aria_checkMissingAriaDisabled line n i h.symm
  · exact span_Aria_checkMissingAriaRequired line n i h.symm
  · exact span_Aria_checkMissingAriaInvalid line n i h.symm
  · exact span_Aria_checkEmptyButtonElements line n i h.symm

theorem span_Tab_family (line : Str) (n : Nat) :
    ∀ i ∈ TabIndexChecker.checkTabIndex line n, wholeLine line n i := by
  intro i hi
  simp only [TabIndexChecker.checkTabIndex] at hi
  have h := mem_of_mem_filterMap_id hi
  simp only [List.mem_cons, List.not_mem_nil, or_false] at h
  rcases h with h | h | h | h | h | h | h | h | h | h | h | h | h | h | h | h
  · exact span_Tab_checkNegativeTabIndex line n i h.symm
  · exact span_Tab_checkTabIndexZeroOnNonInteractive line n i h.symm
  · exact span_Tab_checkMissingTabIndexOnCustomInteractive line n i h.symm
  · exact span_Tab_checkTabIndexOnPresentationRole line n i h.symm
  · exact span_Tab_checkTabIndexOnNoneRole line n i h.symm
  · exact span_Tab_checkTabIndexOnAriaHidden line n i h.symm
  · exact span_Tab_checkRedundantTabIndexOnFocusable line n i h.symm
  · exact span_Tab_checkPositiveTabIndex line n i h.symm
  · exact span_Tab_checkMissingTabIndexOnClickable line n i h.symm
  · exact span_Tab_checkDisabledElementWithTabIndex line n i h.symm
  · exact span_Tab_checkTabIndexOnHiddenElement line n i h.symm
  · exact span_Tab_checkMissingTabIndexOnModalTrigger line n i h.symm
  · exact span_Tab_checkMissingTabIndexOnCustomFormControl line n i h.symm
  · exact span_Tab_checkTabIndexOnDecorativeElement line n i h.symm
  · exact span_Tab_checkInconsistentTabIndexUsage line n i h.symm
  · exact span_Tab_checkTabIndexOnNonInteractiveElement line n i h.symm

theorem span_Semantic_family (line : Str) (n : Nat) (fullText : Str) :
    ∀ i ∈ SemanticHtmlChecker.checkSemanticHtml line n fullText, wholeLine line n i := by
  intro i hi
  simp only [SemanticHtmlChecker.checkSemanticHtml] at hi
  have h := mem_of_mem_filterMap_id hi
  simp only [List.mem_cons, List.not_mem_nil, or_false] at h
  rcases h with h | h | h | h | h | h | h | h | h | h | h
  · exact span_Semantic_checkHeadingHierarchy line n fullText i h.symm
  · exact span_Semantic_checkHtmlLangAttribute line n i h.symm
  · exact span_Semantic_checkListStructure line n i h.symm
  · exact span_Semantic_checkTableStructure line n i h.symm
  · exact span_Semantic_checkFormStructure line n i h.symm
  · exact span_Semantic_checkButtonUsage line n i h.symm
  · exact span_Semantic_checkLinkUsage line n i h.symm
  · exact span_Semantic_checkLandmarkUsage line n i h.symm
  · exact span_Semantic_checkSectioningElements line n i h.symm
  · exact span_Semantic_checkNavigationStructure line n i h.symm
  · exact span_Semantic_checkDocumentStructure line n fullText i h.symm

/-- Auxiliary guard lemma for the repair workflow: `fixSpecificImageTag`
returns no edit when the line has no `<img`, already has `alt=`, or the
generation result is a failure value. -/
theorem fixSpecificImageTag_none_of_guard (lineNumber : Nat) (lineText : Str)
    (result : AltFixResult)
    (h : includes lineText "<img".toList = false ∨
      includes lineText "alt=".toList = true ∨ result.success = false) :
    AltTagAutoFixer.fixSpecificImageTag lineNumber lineText result = none := by
  simp only [AltTagAutoFixer.fixSpecificImageTag]
  rcases h with h | h | h
  · have htr : includes (trim lineText) "<img".toList = false := by
      cases hx : includes (trim lineText) "<img".toList
      · rfl
      · exact Bool.noConfusion (h.symm.trans (includes_of_includes_trim hx))
    rw [htr]
    rfl
  · have htr : includes (trim lineText) "alt=".toList = true :=
      includes_trim_of_includes (by decide) h
    rw [htr]
    simp only [Bool.or_true]
    rfl
  · rw [h]
    split
    · rfl
    · split
      · rfl
      · rfl

/-! ### Claim theorems -/

/-- Claim C1: the engine aggregator splits the document text on newline,
obtains the concatenated issue list from every family runner on every line,
and the resulting sequence is exactly the line-index-ascending concatenation
of the per-line family outputs, families in declaration order (image, form,
other, aria/role, tab-index, semantic-HTML) and detectors in declaration
order within each family. -/
theorem aggregator_line_family_detector_order (text : Str) :
    AccessibilityChecker.checkAccessibilityIssues text =
      ((splitOnNl text).enum.map fun p =>
        ImageChecker.checkImages p.2 p.1 ++
        FormElementsChecker.checkFormElements p.2 p.1 ++
        OtherAccessibilityChecker.checkOtherAccessibility p.2 p.1 text ++
        AriaLabelRoleChecker.checkAriaLabelAndRole p.2 p.1 text ++
        TabIndexChecker.checkTabIndex p.2 p.1 ++
        SemanticHtmlChecker.checkSemanticHtml p.2 p.1 text).flatten := by
  simp only [AccessibilityChecker.checkAccessibilityIssues]
  rw [foldl_append_flatten]
  simp

/-- Claim C2: a line whose trimmed text contains `<img` but not `alt=` makes
the image family report exactly one HIGH missing-alt issue, and a line
containing `alt=""` or `alt=''` makes it report exactly one MEDIUM empty-alt
issue, with the HIGH missing-alt detector not firing on that line. -/
theorem imageFamily_missing_and_empty_alt (line : Str) (n : Nat) :
    (includes (trim line) "<img".toList = true →
      includes (trim line) "alt=".toList = false →
      ImageChecker.checkImages line n =
        [⟨n + 1, "Missing alt attribute on image....".toList, "HIGH".toList,
          ⟨n, 0, n, line.length⟩⟩]) ∧
    (includes line "alt=\"\"".toList = true ∨
        includes line ['a', 'l', 't', '=', '\'', '\''] = true →
      ImageChecker.checkImages line n =
        [⟨n + 1,
          "Empty alt attribute - consider if image is decorative or needs description".toList,
          "MEDIUM".toList, ⟨n, 0, n, line.length⟩⟩]) := by
  constructor
  · intro h1 h2
    have hsub1 : ("alt=".toList : Str) <:+: "alt=\"\"".toList := by decide
    have hsub2 : ("alt=".toList : Str) <:+: ['a', 'l', 't', '=', '\'', '\''] := by decide
    have hDq : includes (trim line) "alt=\"\"".toList = false := by
      cases hx : includes (trim line) "alt=\"\"".toList
      · rfl
      · exact Bool.noConfusion (h2.symm.trans (includes_of_includes_of_sub hx hsub1))
    have hSq : includes (trim line) ['a', 'l', 't', '=', '\'', '\''] = false := by
      cases hx : includes (trim line) ['a', 'l', 't', '=', '\'', '\'']
      · rfl
      · exact Bool.noConfusion (h2.symm.trans (includes_of_includes_of_sub hx hsub2))
    have e1 : ImageChecker.checkImageAltAttributes line n =
        some ⟨n + 1, "Missing alt attribute on image....".toList, "HIGH".toList,
          ⟨n, 0, n, line.length⟩⟩ := by
      simp only [ImageChecker.checkImageAltAttributes]
      rw [h1, h2]
      rfl
    have e2 : ImageChecker.checkEmptyAltAttributes line n = none := by
      simp only [ImageChecker.checkEmptyAltAttributes]
      rw [hDq, hSq]
      rfl
    simp only [ImageChecker.checkImages]
    rw [e1, e2]
    rfl
  · intro h
    have hsub1 : ("alt=".toList : Str) <:+: "alt=\"\"".toList := by decide
    have hsub2 : ("alt=".toList : Str) <:+: ['a', 'l', 't', '=', '\'', '\''] := by decide
    have halt : includes (trim line) "alt=".toList = true := by
      rcases h with h | h
      · exact includes_of_includes_of_sub (includes_trim_of_includes (by decide) h) hsub1
      · exact includes_of_includes_of_sub (includes_trim_of_includes (by decide) h) hsub2
    have e1 : ImageChecker.checkImageAltAttributes line n = none := by
      simp only [ImageChecker.checkImageAltAttributes]
      rw [halt]
      simp only [Bool.not_true, Bool.and_false]
      rfl
    have e2 : ImageChecker.checkEmptyAltAttributes line n =
        some ⟨n + 1,
          "Empty alt attribute - consider if image is decorative or needs description".toList,
          "MEDIUM".toList, ⟨n, 0, n, line.length⟩⟩ := by
      simp only [ImageChecker.checkEmptyAltAttributes]
      rcases h with h | h
      · rw [includes_trim_of_includes (by decide) h]
        simp only [Bool.true_or]
        rfl
      · rw [includes_trim_of_includes (by decide) h]
        simp only [Bool.or_true]
        rfl
    simp only [ImageChecker.checkImages]
    rw [e1, e2]
    rfl

/-- Witness for claim C2: both halves of the theorem at concrete lines
`<img src=logo.png>` and `<img src=x alt="">`. -/
theorem imageFamily_missing_and_empty_alt_witness :
    ImageChecker.checkImages "<img src=logo.png>".toList 0 =
        [⟨1, "Missing alt attribute on image....".toList, "HIGH".toList, ⟨0, 0, 0, 18⟩⟩] ∧
      ImageChecker.checkImages "<img src=x alt=\"\">".toList 1 =
        [⟨2,
          "Empty alt attribute - consider if image is decorative or needs description".toList,
          "MEDIUM".toList, ⟨1, 0, 1, 18⟩⟩] :=
  ⟨(imageFamily_missing_and_empty_alt "<img src=logo.png>".toList 0).1
      (by decide) (by decide),
   (imageFamily_missing_and_empty_alt "<img src=x alt=\"\">".toList 1).2
      (Or.inl (by decide))⟩

/-- Claim C3: the severity classifier is total — `HIGH` maps to the error
level, `MEDIUM` to the warning level, `LOW` to the informational level, every
other string to the informational level — and the three defined severities
map to pairwise distinct outputs. -/
theorem getSeverity_total_mapping :
    AccessibilityChecker.getSeverity "HIGH".toList = DiagnosticSeverity.error ∧
    AccessibilityChecker.getSeverity "MEDIUM".toList = DiagnosticSeverity.warning ∧
    AccessibilityChecker.getSeverity "LOW".toList = DiagnosticSeverity.information ∧
    (∀ s : Str, s ≠ "HIGH".toList → s ≠ "MEDIUM".toList → s ≠ "LOW".toList →
      AccessibilityChecker.getSeverity s = DiagnosticSeverity.information) ∧
    DiagnosticSeverity.error ≠ DiagnosticSeverity.warning ∧
    DiagnosticSeverity.warning ≠ DiagnosticSeverity.information ∧
    DiagnosticSeverity.error ≠ DiagnosticSeverity.information := by
  refine ⟨by decide, by decide, by decide, ?_, by decide, by decide, by decide⟩
  intro s h1 h2 h3
  simp only [AccessibilityChecker.getSeverity]
  rw [if_neg (by simpa using h1), if_neg (by simpa using h2), if_neg (by simpa using h3)]

/-- Witness for claim C3: the defensive default at the concrete undefined
severity string `UNKNOWN`. -/
theorem getSeverity_total_mapping_witness :
    AccessibilityChecker.getSeverity "UNKNOWN".toList = DiagnosticSeverity.information :=
  getSeverity_total_mapping.2.2.2.1 "UNKNOWN".toList (by decide) (by decide) (by decide)

/-- Claim C4, evaluated on the code: `<button onclick="f()">Click me</button>`
yields zero ARIA-family issues as claimed, but `<button onclick="f()"></button>`
yields TWO HIGH issues — the missing-accessible-name detector and the
empty-button detector both fire — not the exactly one issue that the claim
and the repository's own test suite assert. -/
theorem ariaFamily_empty_button_two_issues :
    AriaLabelRoleChecker.checkAriaLabelAndRole
        "<button onclick=\"f()\">Click me</button>".toList 0 [] = [] ∧
    AriaLabelRoleChecker.checkAriaLabelAndRole
        "<button onclick=\"f()\"></button>".toList 0 [] =
      [⟨1,
        "Interactive element missing accessible name (aria-label, aria-labelledby, or visible text)".toList,
        "HIGH".toList, ⟨0, 0, 0, 31⟩⟩,
       ⟨1,
        "Empty button element needs accessible name (aria-label, aria-labelledby, or visible text)".toList,
        "HIGH".toList, ⟨0, 0, 0, 31⟩⟩] :=
  ⟨by decide, by decide⟩

/-- Claim C5, counterexample: on the single-line document
`<div role="button" onclick="f()" tabindex="5">X</div>` the full engine run
yields NO issue of severity HIGH, contrary to the claim's "at least one HIGH
issue" (the tabindex present on the element suppresses every HIGH tab-index
detector, and no other family reports HIGH here). -/
theorem divRoleButtonTabindex_no_high_issue :
    ¬ ∃ i ∈ AccessibilityChecker.checkAccessibilityIssues
        "<div role=\"button\" onclick=\"f()\" tabindex=\"5\">X</div>".toList,
      i.severity = "HIGH".toList := by decide

/-- Claim C5 as amended: the same engine run yields no HIGH issue and exactly
two MEDIUM issues, one of which is the positive-tabindex finding, so that
filtering by severity recovers the counts (0 and 2) independently. -/
theorem divRoleButtonTabindex_two_medium_no_high :
    ((AccessibilityChecker.checkAccessibilityIssues
        "<div role=\"button\" onclick=\"f()\" tabindex=\"5\">X</div>".toList).filter
        (fun i => i.severity == "HIGH".toList)).length = 0 ∧
    ((AccessibilityChecker.checkAccessibilityIssues
        "<div role=\"button\" onclick=\"f()\" tabindex=\"5\">X</div>".toList).filter
        (fun i => i.severity == "MEDIUM".toList)).length = 2 ∧
    ∃ i ∈ AccessibilityChecker.checkAccessibilityIssues
        "<div role=\"button\" onclick=\"f()\" tabindex=\"5\">X</div>".toList,
      i.severity = "MEDIUM".toList ∧
      i.issue =
        "Positive tabindex=\"5\" disrupts natural tab order - use tabindex=\"0\" or negative values only".toList := by
  decide

/-- Claim C6, evaluated on the code: `<button aria-label="button">Submit</button>`
does yield exactly one MEDIUM ARIA-family issue, but its text is the
redundant-aria-label message — no generic-aria-label detector exists in the
code, so the issue text differs from the generic-text message the claim and
the repository's own test suite expect. -/
theorem ariaFamily_generic_label_reports_redundant :
    AriaLabelRoleChecker.checkAriaLabelAndRole
        "<button aria-label=\"button\">Submit</button>".toList 0 [] =
      [⟨1,
        "Redundant aria-label when visible text already provides accessible name".toList,
        "MEDIUM".toList, ⟨0, 0, 0, 43⟩⟩] ∧
    ("Redundant aria-label when visible text already provides accessible name".toList : Str) ≠
      "aria-label contains generic text - use more descriptive labels".toList :=
  ⟨by decide, by decide⟩

/-- Claim C7, evaluated on the code: `<button aria-label="">Click me</button>`
yields TWO ARIA-family issues — the HIGH empty-aria-label issue and the
MEDIUM redundant-aria-label issue (the visible text `Click me` makes the
redundancy detector fire as well) — not the exactly one issue the claim and
the repository's own test suite assert. -/
theorem ariaFamily_empty_label_two_issues :
    AriaLabelRoleChecker.checkAriaLabelAndRole
        "<button aria-label=\"\">Click me</button>".toList 0 [] =
      [⟨1, "Empty or whitespace-only aria-label provides no accessible name".toList,
        "HIGH".toList, ⟨0, 0, 0, 39⟩⟩,
       ⟨1, "Redundant aria-label when visible text already provides accessible name".toList,
        "MEDIUM".toList, ⟨0, 0, 0, 39⟩⟩] := by
  decide

/-- Claim C8: the assisted-repair edit computation returns no edit whenever
the target line does not contain `<img`, already contains `alt=`, or the
external alt-text generation is not initialized, throws, or returns an
empty or missing response; in all those cases applying the (absent) edit
leaves the document text byte-for-byte unchanged. -/
theorem fixSpecificImageTag_no_edit_on_failure :
    ∀ (lineNumber : Nat) (lineText document : Str) (initialized : Bool) (api : ApiOutcome),
      (includes lineText "<img".toList = false ∨
        includes lineText "alt=".toList = true ∨
        initialized = false ∨
        (∃ e, api = ApiOutcome.thrown e) ∨
        api = ApiOutcome.returned none ∨
        (∃ s, api = ApiOutcome.returned (some s) ∧ trim s = [])) →
      AltTagAutoFixer.fixSpecificImageTag lineNumber lineText
          (AltTagAutoFixer.generateAltText initialized api) = none ∧
        AltTagAutoFixer.applyOptEdit document
          (AltTagAutoFixer.fixSpecificImageTag lineNumber lineText
            (AltTagAutoFixer.generateAltText initialized api)) = document := by
  intro lineNumber lineText document initialized api h
  have hnone : AltTagAutoFixer.fixSpecificImageTag lineNumber lineText
      (AltTagAutoFixer.generateAltText initialized api) = none := by
    apply fixSpecificImageTag_none_of_guard
    rcases h with h | h | h | ⟨e, rfl⟩ | rfl | ⟨s, rfl, hs⟩
    · exact Or.inl h
    · exact Or.inr (Or.inl h)
    · subst h
      exact Or.inr (Or.inr rfl)
    · exact Or.inr (Or.inr (by cases initialized <;> rfl))
    · exact Or.inr (Or.inr (by cases initialized <;> rfl))
    · refine Or.inr (Or.inr ?_)
      cases initialized
      · rfl
      · simp [AltTagAutoFixer.generateAltText, hs]
  refine ⟨hnone, ?_⟩
  rw [hnone]
  rfl

/-- Witness for claim C8: the line `<img src="x.png">` with a rejected
external call produces no edit and the document is unchanged. -/
theorem fixSpecificImageTag_no_edit_on_failure_witness :
    AltTagAutoFixer.fixSpecificImageTag 0 "<img src=\"x.png\">".toList
        (AltTagAutoFixer.generateAltText true (ApiOutcome.thrown "network error".toList)) =
        none ∧
      AltTagAutoFixer.applyOptEdit "<img src=\"x.png\">".toList
        (AltTagAutoFixer.fixSpecificImageTag 0 "<img src=\"x.png\">".toList
          (AltTagAutoFixer.generateAltText true
            (ApiOutcome.thrown "network error".toList))) =
        "<img src=\"x.png\">".toList :=
  fixSpecificImageTag_no_edit_on_failure 0 "<img src=\"x.png\">".toList
    "<img src=\"x.png\">".toList true (ApiOutcome.thrown "network error".toList)
    (Or.inr (Or.inr (Or.inr (Or.inl ⟨"network error".toList, rfl⟩))))

/-- Claim C9: every issue produced by any detector of the six engine families
carries a span equal to the whole physical line — `(n, 0, n, line.length)`
with the untrimmed line's length — and a display line field equal to the
zero-based line index plus one. -/
theorem issue_span_whole_line (line : Str) (n : Nat) (fullText : Str) :
    ∀ i ∈ ImageChecker.checkImages line n ++ FormElementsChecker.checkFormElements line n ++
        OtherAccessibilityChecker.checkOtherAccessibility line n fullText ++
        AriaLabelRoleChecker.checkAriaLabelAndRole line n fullText ++
        TabIndexChecker.checkTabIndex line n ++
        SemanticHtmlChecker.checkSemanticHtml line n fullText,
      i.range = ⟨n, 0, n, line.length⟩ ∧ i.line = n + 1 := by
  intro i hi
  simp only [List.mem_append] at hi
  rcases hi with ((((h | h) | h) | h) | h) | h
  · exact span_Image_family line n i h
  · exact span_Form_family line n i h
  · exact span_Other_family line n fullText i h
  · exact span_Aria_family line n fullText i h
  · exact span_Tab_family line n i h
  · exact span_Semantic_family line n fullText i h

/-- Witness for claim C9: the missing-alt issue emitted on the line `<img>`
is in the per-line detector output and carries the whole-line span. -/
theorem issue_span_whole_line_witness :
    (⟨1, "Missing alt attribute on image....".toList, "HIGH".toList,
        ⟨0, 0, 0, 5⟩⟩ : AccessibilityIssue) ∈
        ImageChecker.checkImages "<img>".toList 0 ++
          FormElementsChecker.checkFormElements "<img>".toList 0 ++
          OtherAccessibilityChecker.checkOtherAccessibility "<img>".toList 0 [] ++
          AriaLabelRoleChecker.checkAriaLabelAndRole "<img>".toList 0 [] ++
          TabIndexChecker.checkTabIndex "<img>".toList 0 ++
          SemanticHtmlChecker.checkSemanticHtml "<img>".toList 0 [] ∧
      ((⟨1, "Missing alt attribute on image....".toList, "HIGH".toList,
          ⟨0, 0, 0, 5⟩⟩ : AccessibilityIssue).range = ⟨0, 0, 0, 5⟩ ∧
        (⟨1, "Missing alt attribute on image....".toList, "HIGH".toList,
          ⟨0, 0, 0, 5⟩⟩ : AccessibilityIssue).line = 0 + 1) :=
  ⟨by decide, issue_span_whole_line "<img>".toList 0 [] _ (by decide)⟩

/-- Claim C10: when called the way the aggregator calls it — on a line that
is one of the lines of the `fullText` argument —
`OtherAccessibilityChecker.checkHeadingStructure` always returns `none`: its
guard needs `<h1>` in the trimmed line while `fullText` must NOT contain
`<h1>`, which is impossible for a line of `fullText`, so the
"Multiple h1 tags found" MEDIUM issue is unreachable. -/
theorem checkHeadingStructure_unreachable :
    ∀ (text l : Str) (n : Nat), l ∈ splitOnNl text →
      OtherAccessibilityChecker.checkHeadingStructure l n text = none := by
  intro text l n hmem
  simp only [OtherAccessibilityChecker.checkHeadingStructure]
  split
  · split
    · next hcond =>
      exfalso
      rw [Bool.and_eq_true, Bool.not_eq_true'] at hcond
      have : includes text ['<', 'h', '1', '>'] = true :=
        includes_iff.mpr (((includes_iff.mp hcond.1).trans (trim_sub l)).trans
          (sub_of_mem_splitOnNl hmem))
      simp [this] at hcond
    · rfl
  · rfl

/-- Witness for claim C10: the single-line document `<h1>t` — its only line
trivially contains `<h1>` and so does the full text, hence no issue. -/
theorem checkHeadingStructure_unreachable_witness :
    "<h1>t".toList ∈ splitOnNl "<h1>t".toList ∧
      OtherAccessibilityChecker.checkHeadingStructure "<h1>t".toList 0
        "<h1>t".toList = none :=
  ⟨by decide, checkHeadingStructure_unreachable "<h1>t".toList "<h1>t".toList 0 (by decide)⟩
